import Mathlib

/-!
Shallow embedding of the "Sai Kaki" chat server (TypeScript sources under
`server/`): the provider-fallback orchestrators for chat completion, image
analysis and image generation, the local fallback generators, the personal
information filter, the chess move validator, the real-time enrichment
lookups, the in-memory storage layer, and the message route handler.

Modelling conventions, used throughout:

* Every remote HTTP endpoint is an input of the embedding: an `Env` record
  field holds the outcome the network would deliver (`Except e r`, where
  `.error` is a thrown/`fetch`-rejected call and `.ok` a delivered response
  with its parsed fields).  The TypeScript functions become pure Lean
  functions of `Env`.
* JavaScript strings are Lean `String`s; character-level work happens on
  `String.data : List Char`.
* `Date.now`/`new Date()` timestamps are natural numbers supplied by the
  store's logical clock; `randomUUID` is a fresh-name counter; the
  floating-point haversine distance in the places service is an oracle
  parameter `geoDist` of the environment.
* Regular expressions from the source are embedded by an explicit
  backtracking matcher (`M` combinators below) whose candidate order follows
  the JavaScript engine's priority (leftmost position, greedy quantifiers,
  alternatives in source order), so `String.replace(re, x)` becomes the
  scanner `scanRep`.
-/

set_option maxRecDepth 10000

namespace SaiKaki

/-! ## Basic JavaScript-style string helpers -/

/-- Boolean contiguous-substring test on lists. -/
def infixB (sub : List Char) : List Char → Bool
  | [] => sub.isEmpty
  | c :: t => sub.isPrefixOf (c :: t) || infixB sub t

/-- JS `haystack.includes(needle)`: contiguous substring test. -/
def jsIncludes (hay sub : String) : Bool :=
  infixB sub.data hay.data

/-- JS `s.toLowerCase()` (ASCII range, which is all the sources use),
character by character. -/
def jsToLower (s : String) : String :=
  String.mk (s.data.map Char.toLower)

/-- JS whitespace class `\s`, restricted to the ASCII whitespace the inputs
of this server can carry. -/
def isJsSpace (c : Char) : Bool :=
  c = ' ' ∨ c = '\t' ∨ c = '\n' ∨ c = '\r'

/-- ASCII digit, JS `\d` / `[0-9]`. -/
def isDigitChar (c : Char) : Bool :=
  '0' ≤ c ∧ c ≤ '9'

/-- ASCII letter, JS `[a-zA-Z]`. -/
def isAsciiAlpha (c : Char) : Bool :=
  ('a' ≤ c ∧ c ≤ 'z') ∨ ('A' ≤ c ∧ c ≤ 'Z')

/-- JS word character `\w` = `[A-Za-z0-9_]`, used by the `\b` assertion. -/
def isWordChar (c : Char) : Bool :=
  isAsciiAlpha c ∨ isDigitChar c ∨ c = '_'

/-- The email local-part class `[a-zA-Z0-9._%+-]`. -/
def isEmailLocal (c : Char) : Bool :=
  isAsciiAlpha c ∨ isDigitChar c ∨ c = '.' ∨ c = '_' ∨ c = '%' ∨ c = '+' ∨ c = '-'

/-- The email domain class `[a-zA-Z0-9.-]`. -/
def isEmailDomain (c : Char) : Bool :=
  isAsciiAlpha c ∨ isDigitChar c ∨ c = '.' ∨ c = '-'

/-- The phone/credit-card separator class `[-.\s]` (for the card `[\s-]`:
the dot is simply never tested there). -/
def isPhoneSep (c : Char) : Bool :=
  c = '-' ∨ c = '.' ∨ isJsSpace c

/-- The credit-card separator class `[\s-]`. -/
def isCardSep (c : Char) : Bool :=
  isJsSpace c ∨ c = '-'

/-- JS `Array.prototype.slice(-n)`: the last `n` elements. -/
def jsSliceLast (n : Nat) (l : List α) : List α :=
  l.drop (l.length - n)

/-- JS `Math.round` on an exact rational (floor of `q + 1/2`). -/
def jsRound (q : ℚ) : ℤ :=
  ⌊q + 1/2⌋

/-! ## A backtracking regular-expression matcher

A matcher takes the text at the current position and returns the list of
possible remainders after a match of the construct, in the JavaScript
engine's backtracking priority order (greedy quantifiers longest first,
alternatives in source order).  `matchLen` takes the first candidate the
trailing assertion accepts, which is exactly the match the JS engine
commits to. -/

/-- A regex fragment: text at the position to the prioritised list of
possible remainders. -/
def M : Type := List Char → List (List Char)

/-- A single character of class `p`. -/
def mchar (p : Char → Bool) : M := fun s =>
  match s with
  | c :: t => if p c then [t] else []
  | [] => []

/-- A literal sequence of characters. -/
def mlit (w : List Char) : M := fun s =>
  if w.isPrefixOf s then [s.drop w.length] else []

/-- Sequencing: every continuation of `a` is explored before `a` backtracks. -/
def mseq (a b : M) : M := fun s => (a s).flatMap b

/-- `X?`: greedy, so the candidate with `X` present comes first. -/
def mopt (a : M) : M := fun s => a s ++ [s]

/-- Alternation `X|Y|…` in source order. -/
def malt (as : List M) : M := fun s => as.flatMap (· s)

/-- `p{n}`: exactly `n` characters of class `p` (no choice point). -/
def mexact (n : Nat) (p : Char → Bool) : M := fun s =>
  if (s.take n).length = n ∧ (s.take n).all p then [s.drop n] else []

/-- `p+`: one or more characters of class `p`, greedy (longest first). -/
def mplus (p : Char → Bool) : M := fun s =>
  let k := (s.takeWhile p).length
  (List.range k).map (fun i => s.drop (k - i))

/-- Sequencing of a whole list of fragments. -/
def mseqs : List M → M
  | [] => fun s => [s]
  | a :: rest => mseq a (mseqs rest)

/-- The length of the match the JS engine commits to at this position:
first candidate accepted by the trailing zero-width assertion `endOk`. -/
def matchLen (a : M) (endOk : List Char → Bool) (s : List Char) : Option Nat :=
  ((a s).find? endOk).map (fun t => s.length - t.length)

/-- Word-boundary `\b` before the first (word) character of a match: the
previous character, if any, is not a word character. -/
def boundaryBefore (prev : Option Char) : Bool :=
  match prev with
  | none => true
  | some c => !(isWordChar c)

/-- Word-boundary `\b` after the last (word) character of a match: the
remainder is empty or starts with a non-word character. -/
def boundaryAfterOk (t : List Char) : Bool :=
  match t with
  | [] => true
  | c :: _ => !(isWordChar c)

/-! ## The `String.replace(re, placeholder)` scanner

`scanRep m ph prev s` copies `s` while scanning it left to right: at each
position it asks the matcher `m` (which receives the previous character of
the *input*, for `\b`) for a match; a match of length `n` is replaced by
`ph` and the scan resumes after it, otherwise one character is copied.
This is JavaScript's global-replace semantics (all the matchers below
consume at least one character, so the zero-width case never arises). -/

def scanRep (m : Option Char → List Char → Option Nat) (ph : List Char) :
    Option Char → List Char → List Char
  | _, [] => []
  | prev, c :: t =>
    match m prev (c :: t) with
    | some n => ph ++ scanRep m ph ((c :: t)[n-1]?) (t.drop (n - 1))
    | none => c :: scanRep m ph (some c) t
termination_by _ s => s.length
decreasing_by
  · simp only [List.length_cons, List.length_drop]
    omega
  · simp only [List.length_cons]
    omega

/-- A fuel-indexed clone of `scanRep`, structural in the fuel, so concrete
runs evaluate by `decide`. -/
def scanRepF (m : Option Char → List Char → Option Nat) (ph : List Char) :
    Nat → Option Char → List Char → List Char
  | _, _, [] => []
  | 0, _, s => s
  | fuel + 1, prev, c :: t =>
    match m prev (c :: t) with
    | some n => ph ++ scanRepF m ph fuel ((c :: t)[n-1]?) (t.drop (n - 1))
    | none => c :: scanRepF m ph fuel (some c) t

theorem scanRepF_eq {m ph} :
    ∀ (fuel : Nat) (prev : Option Char) (s : List Char), s.length ≤ fuel →
      scanRepF m ph fuel prev s = scanRep m ph prev s := by
  intro fuel
  induction fuel with
  | zero =>
    intro prev s hlen
    have : s = [] := List.length_eq_zero.mp (Nat.le_zero.mp hlen)
    subst this
    rw [scanRepF, scanRep]
  | succ fuel IH =>
    intro prev s hlen
    cases s with
    | nil => rw [scanRepF, scanRep]
    | cons c t =>
      rw [scanRepF, scanRep]
      cases hm : m prev (c :: t) with
      | some n =>
        simp only [hm]
        rw [IH]
        simp only [List.length_drop, List.length_cons] at *
        omega
      | none =>
        simp only [hm]
        rw [IH]
        simp only [List.length_cons] at hlen
        omega

/-- `scanRep` run with the input's length as fuel. -/
theorem scanRep_eq_F {m ph} (prev : Option Char) (s : List Char) :
    scanRep m ph prev s = scanRepF m ph s.length prev s :=
  (scanRepF_eq s.length prev s (Nat.le_refl _)).symm

/-! ## The four personal-information patterns

Embedded from `filterPersonalInformation` in `server/services/openai.ts`:

* email: `/[a-zA-Z0-9._%+-]+@[a-zA-Z0-9.-]+\.[a-zA-Z]{2,}/g`
* phone: `/(\+?1[-.\s]?)?\(?[0-9]{3}\)?[-.\s]?[0-9]{3}[-.\s]?[0-9]{4}/g`
* card:  `/\b\d{4}[\s-]?\d{4}[\s-]?\d{4}[\s-]?\d{4}\b/g`
* SSN:   `/\b\d{3}-?\d{2}-?\d{4}\b/g`
-/

/-- The email pattern's domain part `[a-zA-Z0-9.-]+\.[a-zA-Z]{2,}` after the
`@`: the engine backtracks the greedy `+` from the longest run, so it
commits to the *largest* split index `k ≥ 1` whose character is `'.'`
followed by at least two ASCII letters. -/
def dotSplitPred (rest : List Char) (k : Nat) : Bool :=
  decide (1 ≤ k) && (rest[k]? == some '.') &&
  (rest[k+1]?).any isAsciiAlpha && (rest[k+2]?).any isAsciiAlpha

/-- The split search itself: largest `k` first. -/
def dotSplit (rest : List Char) (dmax : Nat) : Option Nat :=
  (List.range dmax).reverse.find? (dotSplitPred rest)

/-- Match of the email regex starting exactly at this position (the greedy
local part admits no backtracking because `'@'` is outside its class). -/
def emailMatchAt (_prev : Option Char) (s : List Char) : Option Nat :=
  if (s.takeWhile isEmailLocal).length = 0 then none else
  match s.drop (s.takeWhile isEmailLocal).length with
  | c :: rest =>
    if c = '@' then
      match dotSplit rest ((rest.takeWhile isEmailDomain).length) with
      | some k =>
        some ((s.takeWhile isEmailLocal).length + 1 + (k + 1) +
          ((rest.drop (k+1)).takeWhile isAsciiAlpha).length)
      | none => none
    else none
  | [] => none

/-- A successful email match consumes at least one character. -/
theorem emailMatchAt_one_le {pr : Option Char} {s : List Char} {n : Nat}
    (h : emailMatchAt pr s = some n) : 1 ≤ n := by
  unfold emailMatchAt at h
  split at h
  · exact absurd h (by simp)
  · split at h
    · split at h
      · split at h
        · simp only [Option.some.injEq] at h
          omega
        · exact absurd h (by simp)
      · exact absurd h (by simp)
    · exact absurd h (by simp)

/-- The phone pattern's body (no boundary assertions in the source regex). -/
def phoneM : M :=
  mseqs [mopt (mseqs [mopt (mchar (· = '+')), mchar (· = '1'), mopt (mchar isPhoneSep)]),
         mopt (mchar (· = '(')),
         mexact 3 isDigitChar,
         mopt (mchar (· = ')')),
         mopt (mchar isPhoneSep),
         mexact 3 isDigitChar,
         mopt (mchar isPhoneSep),
         mexact 4 isDigitChar]

/-- Match of the phone regex starting exactly at this position. -/
def phoneMatchAt (_prev : Option Char) (s : List Char) : Option Nat :=
  matchLen phoneM (fun _ => true) s

/-- The credit-card pattern's body, between its two `\b`. -/
def cardM : M :=
  mseqs [mexact 4 isDigitChar, mopt (mchar isCardSep),
         mexact 4 isDigitChar, mopt (mchar isCardSep),
         mexact 4 isDigitChar, mopt (mchar isCardSep),
         mexact 4 isDigitChar]

/-- Match of the credit-card regex (with its word boundaries) starting
exactly at this position. -/
def cardMatchAt (prev : Option Char) (s : List Char) : Option Nat :=
  if boundaryBefore prev then matchLen cardM boundaryAfterOk s else none

/-- The SSN pattern's body, between its two `\b`. -/
def ssnM : M :=
  mseqs [mexact 3 isDigitChar, mopt (mchar (· = '-')),
         mexact 2 isDigitChar, mopt (mchar (· = '-')),
         mexact 4 isDigitChar]

/-- Match of the SSN regex (with its word boundaries) starting exactly at
this position. -/
def ssnMatchAt (prev : Option Char) (s : List Char) : Option Nat :=
  if boundaryBefore prev then matchLen ssnM boundaryAfterOk s else none

/-- `filterPersonalInformation` from `server/services/openai.ts`: the four
global replacements, in source order (email, phone, credit card, SSN). -/
def filterPersonalInformation (text : String) : String :=
  let f1 := scanRep emailMatchAt "[EMAIL]".data none text.data
  let f2 := scanRep phoneMatchAt "[PHONE]".data none f1
  let f3 := scanRep cardMatchAt "[CREDIT_CARD]".data none f2
  let f4 := scanRep ssnMatchAt "[SSN]".data none f3
  String.mk f4

/-! ## Email-pattern matches as a shape predicate

`EmailSpan w` says the text `w` is exactly what the email regex can match:
a non-empty run of local characters, `'@'`, a non-empty run of domain
characters, `'.'`, and at least two ASCII letters.  It is the
specification-level counterpart of `emailMatchAt`, used to state that
`filterPersonalInformation`'s output contains no email-shaped substring. -/

def EmailSpan (w : List Char) : Prop :=
  ∃ loc dom al, w = loc ++ '@' :: (dom ++ '.' :: al) ∧
    loc ≠ [] ∧ (∀ c ∈ loc, isEmailLocal c) ∧
    dom ≠ [] ∧ (∀ c ∈ dom, isEmailDomain c) ∧
    2 ≤ al.length ∧ (∀ c ∈ al, isAsciiAlpha c)

/-- No email-shaped substring anywhere in `s`. -/
def EmailSafe (s : List Char) : Prop :=
  ∀ w, EmailSpan w → ¬ w <:+: s

theorem emailSpan_ne_nil {w : List Char} (h : EmailSpan w) : w ≠ [] := by
  obtain ⟨loc, dom, al, rfl, -⟩ := h
  simp

theorem emailSpan_mem_at {w : List Char} (h : EmailSpan w) : '@' ∈ w := by
  obtain ⟨loc, dom, al, rfl, -⟩ := h
  simp

/-- Every character of an email-shaped text lies in one of the regex's
character classes. -/
theorem emailSpan_classes {w : List Char} (h : EmailSpan w) :
    ∀ c ∈ w, isEmailLocal c ∨ c = '@' ∨ isEmailDomain c ∨ c = '.' ∨ isAsciiAlpha c := by
  obtain ⟨loc, dom, al, rfl, -, hloc, -, hdom, -, hal⟩ := h
  intro c hc
  rcases List.mem_append.mp hc with h1 | h2
  · exact Or.inl (hloc _ h1)
  rcases List.mem_cons.mp h2 with h3 | h4
  · exact Or.inr (Or.inl h3)
  rcases List.mem_append.mp h4 with h5 | h6
  · exact Or.inr (Or.inr (Or.inl (hdom _ h5)))
  rcases List.mem_cons.mp h6 with h7 | h8
  · exact Or.inr (Or.inr (Or.inr (Or.inl h7)))
  · exact Or.inr (Or.inr (Or.inr (Or.inr (hal _ h8))))

/-- `'['` and `']'` are in none of the email regex's character classes. -/
theorem emailSpan_no_bracket {w : List Char} (h : EmailSpan w) :
    '[' ∉ w ∧ ']' ∉ w := by
  constructor <;> intro hm <;>
    rcases emailSpan_classes h _ hm with h1 | h1 | h1 | h1 | h1 <;>
    revert h1 <;> decide

/-- `EmailSafe` is inherited by contiguous substrings. -/
theorem emailSafe_of_infix {s t : List Char} (hs : EmailSafe s) (h : t <:+: s) :
    EmailSafe t :=
  fun w hw hwt => hs w hw (hwt.trans h)

/-! ### Splitting an infix across a distinguished character -/

/-- A prefix of `X ++ a :: Y` that avoids `a` is a prefix of `X`. -/
theorem prefix_split {w : List Char} {a : Char} :
    ∀ (X : List Char) {Y : List Char}, w <+: X ++ a :: Y → a ∉ w → w <+: X := by
  intro X
  induction X generalizing w with
  | nil =>
    intro Y h ha
    cases w with
    | nil => exact List.nil_prefix
    | cons c w' =>
      rw [List.nil_append, List.cons_prefix_cons] at h
      exact absurd (h.1 ▸ List.mem_cons_self c w') ha
  | cons x X' IH =>
    intro Y h ha
    cases w with
    | nil => exact List.nil_prefix
    | cons c w' =>
      rw [List.cons_append, List.cons_prefix_cons] at h
      have h1 : w' <+: X' :=
        IH h.2 (fun hm => ha (List.mem_cons_of_mem _ hm))
      exact h.1 ▸ List.cons_prefix_cons.mpr ⟨rfl, h1⟩

/-- An infix of `X ++ a :: Y` that avoids `a` is an infix of `X` or of `Y`. -/
theorem infix_split {w : List Char} {a : Char} :
    ∀ {X Y : List Char}, w <:+: X ++ a :: Y → a ∉ w → w <:+: X ∨ w <:+: Y := by
  intro X
  induction X generalizing w with
  | nil =>
    intro Y h ha
    rw [List.nil_append, List.infix_cons_iff] at h
    rcases h with h | h
    · have h0 : w <+: ([] : List Char) ++ a :: Y := by simpa using h
      have h1 := prefix_split [] h0 ha
      rw [List.prefix_nil] at h1
      subst h1
      exact Or.inl List.infix_rfl
    · exact Or.inr h
  | cons x X' IH =>
    intro Y h ha
    rw [List.cons_append, List.infix_cons_iff] at h
    rcases h with h | h
    · exact Or.inl (prefix_split (x :: X') h ha).isInfix
    · rcases IH h ha with h1 | h1
      · exact Or.inl (h1.trans (List.infix_cons List.infix_rfl))
      · exact Or.inr h1

/-! ### Completeness of `emailMatchAt` -/

/-- `takeWhile` walks through a block that satisfies the predicate. -/
theorem takeWhile_append_all {p : Char → Bool} :
    ∀ (xs r : List Char), (∀ c ∈ xs, p c = true) →
      (xs ++ r).takeWhile p = xs ++ r.takeWhile p := by
  intro xs
  induction xs with
  | nil => intro r _; rfl
  | cons x xs IH =>
    intro r h
    simp only [List.cons_append, List.takeWhile_cons, h x (List.mem_cons_self x xs),
      if_true, List.cons.injEq, true_and]
    exact IH r (fun c hc => h c (List.mem_cons_of_mem _ hc))

/-- If an email-shaped text is a prefix of `s`, the matcher fires at `s`
(whatever the previous character was). -/
theorem emailMatchAt_isSome_of_span {w s : List Char} (pr : Option Char)
    (hw : EmailSpan w) (hp : w <+: s) : (emailMatchAt pr s).isSome := by
  obtain ⟨loc, dom, al, hweq, hlne, hloc, hdne, hdom, hal2, hal⟩ := hw
  obtain ⟨post, rfl⟩ := hp
  subst hweq
  obtain ⟨a1, a2, altl, rfl⟩ : ∃ a1 a2 altl, al = a1 :: a2 :: altl := by
    match al, hal2 with
    | a1 :: a2 :: altl, _ => exact ⟨a1, a2, altl, rfl⟩
  -- normalize the shape of s
  have hs : (loc ++ '@' :: (dom ++ '.' :: (a1 :: a2 :: altl))) ++ post =
      loc ++ '@' :: (dom ++ '.' :: (a1 :: a2 :: (altl ++ post))) := by
    simp [List.append_assoc]
  rw [hs]
  set rest := dom ++ '.' :: (a1 :: a2 :: (altl ++ post)) with hrest
  -- the greedy local run is exactly loc
  have htw : (loc ++ '@' :: rest).takeWhile isEmailLocal = loc := by
    rw [takeWhile_append_all loc _ hloc]
    simp [List.takeWhile_cons, isEmailLocal, isAsciiAlpha, isDigitChar]
  have hdrop : (loc ++ '@' :: rest).drop loc.length = '@' :: rest :=
    List.drop_left loc ('@' :: rest)
  -- the domain run reaches past the split point
  have hdmax : dom.length < (rest.takeWhile isEmailDomain).length := by
    rw [hrest, takeWhile_append_all dom _ hdom]
    have hc : ('.' :: (a1 :: a2 :: (altl ++ post))).takeWhile isEmailDomain =
        '.' :: ((a1 :: a2 :: (altl ++ post)).takeWhile isEmailDomain) := by
      simp [List.takeWhile_cons, isEmailDomain, isAsciiAlpha, isDigitChar]
    rw [hc]
    simp
  -- the split-point candidate dom.length validates the search predicate
  have hget0 : rest[dom.length]? = some '.' := by
    rw [hrest, List.getElem?_append_right (Nat.le_refl _)]
    simp
  have hget1 : rest[dom.length + 1]? = some a1 := by
    rw [hrest, List.getElem?_append_right (Nat.le_add_right _ _)]
    simp
  have hget2 : rest[dom.length + 2]? = some a2 := by
    rw [hrest, List.getElem?_append_right (Nat.le_add_right _ _)]
    simp
  have hpred : dotSplitPred rest dom.length = true := by
    rw [dotSplitPred, hget0, hget1, hget2]
    simp only [Option.any_some, Bool.and_eq_true, beq_iff_eq, decide_eq_true_eq]
    exact ⟨⟨⟨List.length_pos.mpr hdne, trivial⟩, hal a1 (by simp)⟩, hal a2 (by simp)⟩
  have hmem : dom.length ∈ (List.range ((rest.takeWhile isEmailDomain).length)).reverse := by
    rw [List.mem_reverse, List.mem_range]
    exact hdmax
  have hsplit : (dotSplit rest ((rest.takeWhile isEmailDomain).length)).isSome := by
    rw [dotSplit]
    exact List.find?_isSome.mpr ⟨dom.length, hmem, hpred⟩
  -- assemble
  obtain ⟨k, hk⟩ := Option.isSome_iff_exists.mp hsplit
  simp only [emailMatchAt, htw, hdrop, hk]
  rw [if_neg (fun h0 => hlne (List.length_eq_zero.mp h0))]
  simp

/-! ### First-match decomposition of the scanner -/

/-- Position and length of the first (leftmost) match the scanner commits
to, threading the previous-character context exactly as `scanRep` does. -/
def firstMatch (m : Option Char → List Char → Option Nat) :
    Option Char → List Char → Option (Nat × Nat)
  | _, [] => none
  | prev, c :: t =>
    match m prev (c :: t) with
    | some n => some (0, n)
    | none => (firstMatch m (some c) t).map (fun pn => (pn.1 + 1, pn.2))

theorem scanRep_of_firstMatch_none {m ph} :
    ∀ {prev s}, firstMatch m prev s = none → scanRep m ph prev s = s := by
  intro prev s
  induction s generalizing prev with
  | nil => intro _; rw [scanRep]
  | cons c t IH =>
    intro h
    rw [firstMatch] at h
    rw [scanRep]
    cases hm : m prev (c :: t) with
    | some n => rw [hm] at h; exact absurd h (by simp)
    | none =>
      rw [hm] at h
      simp only [Option.map_eq_none'] at h
      rw [IH h]

theorem firstMatch_none_all {m : Option Char → List Char → Option Nat}
    (hpi : ∀ pr₁ pr₂ t, m pr₁ t = m pr₂ t) :
    ∀ {prev s}, firstMatch m prev s = none →
      ∀ i < s.length, m none (s.drop i) = none := by
  intro prev s
  induction s generalizing prev with
  | nil => intro _ i hi; simp at hi
  | cons c t IH =>
    intro h i hi
    rw [firstMatch] at h
    cases hm : m prev (c :: t) with
    | some n => rw [hm] at h; exact absurd h (by simp)
    | none =>
      rw [hm] at h
      simp only [Option.map_eq_none'] at h
      cases i with
      | zero => rw [List.drop_zero]; rw [hpi none prev]; exact hm
      | succ i' => exact IH h i' (by simpa using hi)

theorem firstMatch_fail_lt {m : Option Char → List Char → Option Nat}
    (hpi : ∀ pr₁ pr₂ t, m pr₁ t = m pr₂ t) :
    ∀ {prev s p n}, firstMatch m prev s = some (p, n) →
      ∀ i < p, m none (s.drop i) = none := by
  intro prev s
  induction s generalizing prev with
  | nil => intro p n h; rw [firstMatch] at h; exact absurd h (by simp)
  | cons c t IH =>
    intro p n h i hi
    rw [firstMatch] at h
    cases hm : m prev (c :: t) with
    | some n0 =>
      rw [hm] at h
      simp only [Option.some.injEq, Prod.mk.injEq] at h
      omega
    | none =>
      rw [hm] at h
      simp only [Option.map_eq_some'] at h
      obtain ⟨⟨p', n'⟩, hfm, heq⟩ := h
      simp only [Prod.mk.injEq] at heq
      cases i with
      | zero => rw [List.drop_zero, hpi none prev]; exact hm
      | succ i' =>
        have : i' < p' := by omega
        have hn : n' = n := heq.2
        exact IH (hn ▸ hfm) i' this

theorem firstMatch_len_pos {m : Option Char → List Char → Option Nat}
    (hone : ∀ pr t n, m pr t = some n → 1 ≤ n) :
    ∀ {prev s p n}, firstMatch m prev s = some (p, n) → 1 ≤ n := by
  intro prev s
  induction s generalizing prev with
  | nil => intro p n h; rw [firstMatch] at h; exact absurd h (by simp)
  | cons c t IH =>
    intro p n h
    rw [firstMatch] at h
    cases hm : m prev (c :: t) with
    | some n0 =>
      rw [hm] at h
      simp only [Option.some.injEq, Prod.mk.injEq] at h
      exact h.2 ▸ hone _ _ _ hm
    | none =>
      rw [hm] at h
      simp only [Option.map_eq_some'] at h
      obtain ⟨⟨p', n'⟩, hfm, heq⟩ := h
      simp only [Prod.mk.injEq] at heq
      exact heq.2 ▸ IH hfm

theorem scanRep_decomp {m} (ph : List Char) :
    ∀ {prev s p n}, firstMatch m prev s = some (p, n) → 1 ≤ n →
      ∃ prev', scanRep m ph prev s =
        s.take p ++ ph ++ scanRep m ph prev' (s.drop (p + n)) := by
  intro prev s
  induction s generalizing prev with
  | nil => intro p n h _; rw [firstMatch] at h; exact absurd h (by simp)
  | cons c t IH =>
    intro p n h hn
    rw [firstMatch] at h
    cases hm : m prev (c :: t) with
    | some n0 =>
      rw [hm] at h
      simp only [Option.some.injEq, Prod.mk.injEq] at h
      obtain ⟨rfl, rfl⟩ := h
      refine ⟨(c :: t)[n0 - 1]?, ?_⟩
      rw [scanRep, hm]
      have hdrop : t.drop (n0 - 1) = (c :: t).drop (0 + n0) := by
        cases n0 with
        | zero => omega
        | succ k => simp
      simp [hdrop]
    | none =>
      rw [hm] at h
      simp only [Option.map_eq_some'] at h
      obtain ⟨⟨p', n'⟩, hfm, heq⟩ := h
      simp only [Prod.mk.injEq] at heq
      obtain ⟨hp, hn'⟩ := heq
      subst hp; subst hn'
      obtain ⟨prev', hrec⟩ := IH hfm hn
      refine ⟨prev', ?_⟩
      rw [scanRep, hm, hrec]
      simp [Nat.add_right_comm]

/-! ### Emails never survive nor arise across a bracketed placeholder -/

/-- Glueing email-free pieces around a `'[' … ']'` placeholder whose inner
text has no `'@'` stays email-free: an email-shaped substring contains an
`'@'` but no bracket, so it cannot touch the placeholder. -/
theorem emailSafe_append_ph {A B mid : List Char} (hmid : '@' ∉ mid)
    (hA : ∀ w, EmailSpan w → ¬ w <:+: A) (hB : EmailSafe B) :
    EmailSafe (A ++ ('[' :: mid ++ [']']) ++ B) := by
  intro w hw hinf
  obtain ⟨hlb, hrb⟩ := emailSpan_no_bracket hw
  have hshape : A ++ ('[' :: mid ++ [']']) ++ B = A ++ '[' :: (mid ++ ']' :: B) := by
    simp
  rw [hshape] at hinf
  rcases infix_split hinf hlb with h | h
  · exact hA w hw h
  rcases infix_split h hrb with h1 | h1
  · exact hmid (h1.subset (emailSpan_mem_at hw))
  · exact hB w hw h1

/-- Core induction for the email stage itself: the scanner's output holds no
email-shaped substring, whatever the input was. -/
theorem emailSafe_scanRep_email (mid : List Char) (hmid : '@' ∉ mid) :
    ∀ N s prev, s.length ≤ N →
      EmailSafe (scanRep emailMatchAt ('[' :: mid ++ [']']) prev s) := by
  have hpi : ∀ pr₁ pr₂ t, emailMatchAt pr₁ t = emailMatchAt pr₂ t :=
    fun _ _ _ => rfl
  intro N
  induction N with
  | zero =>
    intro s prev hlen
    have : s = [] := List.length_eq_zero.mp (Nat.le_zero.mp hlen)
    subst this
    intro w hw hinf
    rw [scanRep] at hinf
    exact emailSpan_ne_nil hw (List.eq_nil_of_infix_nil hinf)
  | succ N IH =>
    intro s prev hlen
    cases hfm : firstMatch emailMatchAt prev s with
    | none =>
      rw [scanRep_of_firstMatch_none hfm]
      intro w hw hinf
      obtain ⟨pre, post, rfl⟩ := hinf
      have hi : pre.length < (pre ++ w ++ post).length := by
        have h1 : 1 ≤ w.length := List.length_pos.mpr (emailSpan_ne_nil hw)
        have h2 : (pre ++ w ++ post).length = pre.length + w.length + post.length := by
          simp [Nat.add_assoc]
        omega
      have hfail := firstMatch_none_all hpi hfm pre.length hi
      have hdrop : (pre ++ w ++ post).drop pre.length = w ++ post := by
        rw [List.append_assoc]
        exact List.drop_left pre (w ++ post)
      rw [hdrop] at hfail
      have := emailMatchAt_isSome_of_span none hw (List.prefix_append w post)
      rw [hfail] at this
      simp at this
    | some pn =>
      obtain ⟨p, n⟩ := pn
      have hn : 1 ≤ n :=
        firstMatch_len_pos (fun _ _ _ h => emailMatchAt_one_le h) hfm
      obtain ⟨prev', hdec⟩ := scanRep_decomp ('[' :: mid ++ [']']) hfm hn
      rw [hdec]
      apply emailSafe_append_ph hmid
      · intro w hw hinf
        obtain ⟨pre, post, htake⟩ := hinf
        have hwpos : 1 ≤ w.length := List.length_pos.mpr (emailSpan_ne_nil hw)
        have hip : pre.length < p := by
          have h4 : (s.take p).length = pre.length + w.length + post.length := by
            rw [← htake]; simp [Nat.add_assoc]
          have hp : (s.take p).length ≤ p := by simp
          omega
        have hfail := firstMatch_fail_lt hpi hfm pre.length hip
        have hpref : w <+: s.drop pre.length := by
          have h2 : w <+: (s.take p).drop pre.length := by
            have : (s.take p).drop pre.length = w ++ post := by
              rw [← htake, List.append_assoc]
              exact List.drop_left pre (w ++ post)
            rw [this]
            exact List.prefix_append w post
          have h3 : (s.take p).drop pre.length <+: s.drop pre.length := by
            rw [List.drop_take]
            exact List.take_prefix _ _
          exact h2.trans h3
        have := emailMatchAt_isSome_of_span none hw hpref
        rw [hfail] at this
        simp at this
      · apply IH
        have : 1 ≤ p + n := by omega
        simp only [List.length_drop]
        omega

/-- Core induction for the later stages: a scanner with a bracketed,
`'@'`-free placeholder preserves email-freeness. -/
theorem emailSafe_scanRep_preserve (m : Option Char → List Char → Option Nat)
    (hone : ∀ pr t n, m pr t = some n → 1 ≤ n)
    (mid : List Char) (hmid : '@' ∉ mid) :
    ∀ N s prev, s.length ≤ N → EmailSafe s →
      EmailSafe (scanRep m ('[' :: mid ++ [']']) prev s) := by
  intro N
  induction N with
  | zero =>
    intro s prev hlen hsafe
    have : s = [] := List.length_eq_zero.mp (Nat.le_zero.mp hlen)
    subst this
    intro w hw hinf
    rw [scanRep] at hinf
    exact emailSpan_ne_nil hw (List.eq_nil_of_infix_nil hinf)
  | succ N IH =>
    intro s prev hlen hsafe
    cases hfm : firstMatch m prev s with
    | none =>
      rw [scanRep_of_firstMatch_none hfm]
      exact hsafe
    | some pn =>
      obtain ⟨p, n⟩ := pn
      have hn : 1 ≤ n := firstMatch_len_pos hone hfm
      obtain ⟨prev', hdec⟩ := scanRep_decomp ('[' :: mid ++ [']']) hfm hn
      rw [hdec]
      apply emailSafe_append_ph hmid
      · intro w hw hinf
        exact hsafe w hw (hinf.trans (List.take_prefix p s).isInfix)
      · apply IH
        · simp only [List.length_drop]; omega
        · exact emailSafe_of_infix hsafe (List.drop_suffix _ _).isInfix

/-! ### The remaining matchers consume at least one character -/

/-- Every candidate remainder of the fragment is at least `k` characters
shorter than the input. -/
def Consumes (a : M) (k : Nat) : Prop :=
  ∀ s t, t ∈ a s → t.length + k ≤ s.length

theorem consumes_mono {a : M} {k k' : Nat} (h : Consumes a k) (hk : k' ≤ k) :
    Consumes a k' :=
  fun s t ht => le_trans (Nat.add_le_add_left hk t.length) (h s t ht)

theorem consumes_mchar (p : Char → Bool) : Consumes (mchar p) 1 := by
  intro s t ht
  cases s with
  | nil => simp [mchar] at ht
  | cons c s' =>
    by_cases hp : p c
    · simp only [mchar, hp, if_true, List.mem_singleton] at ht
      subst ht
      simp
    · simp [mchar, hp] at ht

theorem consumes_mexact (n : Nat) (p : Char → Bool) : Consumes (mexact n p) n := by
  intro s t ht
  rw [mexact] at ht
  split at ht
  · rename_i hc
    simp only [List.mem_singleton] at ht
    subst ht
    have h1 : (s.take n).length = n := hc.1
    have h2 : (s.take n).length ≤ s.length := by simp
    simp only [List.length_drop]
    omega
  · simp at ht

theorem consumes_mopt {a : M} {k : Nat} (h : Consumes a k) : Consumes (mopt a) 0 := by
  intro s t ht
  rw [mopt] at ht
  rcases List.mem_append.mp ht with h1 | h1
  · exact le_trans (by omega) (h s t h1)
  · simp only [List.mem_singleton] at h1
    subst h1
    omega

theorem consumes_mseq {a b : M} {j k : Nat}
    (ha : Consumes a j) (hb : Consumes b k) : Consumes (mseq a b) (j + k) := by
  intro s t ht
  rw [mseq] at ht
  obtain ⟨u, hu, htu⟩ := List.mem_flatMap.mp ht
  have h1 := ha s u hu
  have h2 := hb u t htu
  omega

theorem consumes_mseqs_nil : Consumes (mseqs []) 0 := by
  intro s t ht
  rw [mseqs] at ht
  simp only [List.mem_singleton] at ht
  subst ht
  omega

theorem consumes_mseqs_cons {a : M} {rest : List M} {j k : Nat}
    (ha : Consumes a j) (hrest : Consumes (mseqs rest) k) :
    Consumes (mseqs (a :: rest)) (j + k) := by
  rw [mseqs]
  exact consumes_mseq ha hrest

theorem consumes_phoneM : Consumes phoneM 10 := by
  have hA : Consumes (mopt (mseqs [mopt (mchar (· = '+')), mchar (· = '1'),
      mopt (mchar isPhoneSep)])) 0 :=
    consumes_mopt (consumes_mseqs_cons (consumes_mopt (consumes_mchar _))
      (consumes_mseqs_cons (consumes_mchar _)
        (consumes_mseqs_cons (consumes_mopt (consumes_mchar _)) consumes_mseqs_nil)))
  have H : Consumes phoneM (0 + (0 + (3 + (0 + (0 + (3 + (0 + (4 + 0)))))))) := by
    rw [phoneM]
    exact consumes_mseqs_cons hA
      (consumes_mseqs_cons (consumes_mopt (consumes_mchar _))
        (consumes_mseqs_cons (consumes_mexact 3 _)
          (consumes_mseqs_cons (consumes_mopt (consumes_mchar _))
            (consumes_mseqs_cons (consumes_mopt (consumes_mchar _))
              (consumes_mseqs_cons (consumes_mexact 3 _)
                (consumes_mseqs_cons (consumes_mopt (consumes_mchar _))
                  (consumes_mseqs_cons (consumes_mexact 4 _) consumes_mseqs_nil)))))))
  exact consumes_mono H (by norm_num)

theorem consumes_cardM : Consumes cardM 16 := by
  have H : Consumes cardM (4 + (0 + (4 + (0 + (4 + (0 + (4 + 0))))))) := by
    rw [cardM]
    exact consumes_mseqs_cons (consumes_mexact 4 _)
      (consumes_mseqs_cons (consumes_mopt (consumes_mchar _))
        (consumes_mseqs_cons (consumes_mexact 4 _)
          (consumes_mseqs_cons (consumes_mopt (consumes_mchar _))
            (consumes_mseqs_cons (consumes_mexact 4 _)
              (consumes_mseqs_cons (consumes_mopt (consumes_mchar _))
                (consumes_mseqs_cons (consumes_mexact 4 _) consumes_mseqs_nil))))))
  exact consumes_mono H (by norm_num)

theorem consumes_ssnM : Consumes ssnM 9 := by
  have H : Consumes ssnM (3 + (0 + (2 + (0 + (4 + 0))))) := by
    rw [ssnM]
    exact consumes_mseqs_cons (consumes_mexact 3 _)
      (consumes_mseqs_cons (consumes_mopt (consumes_mchar _))
        (consumes_mseqs_cons (consumes_mexact 2 _)
          (consumes_mseqs_cons (consumes_mopt (consumes_mchar _))
            (consumes_mseqs_cons (consumes_mexact 4 _) consumes_mseqs_nil))))
  exact consumes_mono H (by norm_num)

theorem matchLen_one_le {a : M} {k : Nat} {endOk : List Char → Bool}
    {s : List Char} {n : Nat} (hc : Consumes a k) (hk : 1 ≤ k)
    (h : matchLen a endOk s = some n) : 1 ≤ n := by
  rw [matchLen] at h
  cases hf : (a s).find? endOk with
  | none => rw [hf] at h; exact absurd h (by simp)
  | some t =>
    rw [hf] at h
    simp only [Option.map_some', Option.some.injEq] at h
    have hmem : t ∈ a s := List.mem_of_find?_eq_some hf
    have := hc s t hmem
    omega

theorem phoneMatchAt_one_le {pr s n} (h : phoneMatchAt pr s = some n) : 1 ≤ n :=
  matchLen_one_le consumes_phoneM (by norm_num) h

theorem cardMatchAt_one_le {pr s n} (h : cardMatchAt pr s = some n) : 1 ≤ n := by
  rw [cardMatchAt] at h
  split at h
  · exact matchLen_one_le consumes_cardM (by norm_num) h
  · exact absurd h (by simp)

theorem ssnMatchAt_one_le {pr s n} (h : ssnMatchAt pr s = some n) : 1 ≤ n := by
  rw [ssnMatchAt] at h
  split at h
  · exact matchLen_one_le consumes_ssnM (by norm_num) h
  · exact absurd h (by simp)

/-! ### The headline property of the personal-information filter -/

/-- The output of `filterPersonalInformation` never contains an email-shaped
substring: the email pass replaces every surviving match, and each later
pass only splices in bracketed, `'@'`-free placeholder text. -/
theorem filterPersonalInformation_emailSafe (text : String) :
    EmailSafe (filterPersonalInformation text).data := by
  rw [filterPersonalInformation]
  have hEM : "[EMAIL]".data = '[' :: ('E' :: 'M' :: 'A' :: 'I' :: 'L' :: []) ++ [']'] := by
    decide
  have hPH : "[PHONE]".data = '[' :: ('P' :: 'H' :: 'O' :: 'N' :: 'E' :: []) ++ [']'] := by
    decide
  have hCC : "[CREDIT_CARD]".data =
      '[' :: ('C' :: 'R' :: 'E' :: 'D' :: 'I' :: 'T' :: '_' :: 'C' :: 'A' :: 'R' :: 'D' :: []) ++ [']'] := by
    decide
  have hSN : "[SSN]".data = '[' :: ('S' :: 'S' :: 'N' :: []) ++ [']'] := by
    decide
  rw [hEM, hPH, hCC, hSN]
  have s1 := emailSafe_scanRep_email ('E' :: 'M' :: 'A' :: 'I' :: 'L' :: [])
    (by decide) text.data.length text.data none (le_refl _)
  have s2 := emailSafe_scanRep_preserve phoneMatchAt
    (fun _ _ _ h => phoneMatchAt_one_le h)
    ('P' :: 'H' :: 'O' :: 'N' :: 'E' :: []) (by decide) _ _ none (le_refl _) s1
  have s3 := emailSafe_scanRep_preserve cardMatchAt
    (fun _ _ _ h => cardMatchAt_one_le h)
    ('C' :: 'R' :: 'E' :: 'D' :: 'I' :: 'T' :: '_' :: 'C' :: 'A' :: 'R' :: 'D' :: [])
    (by decide) _ _ none (le_refl _) s2
  exact emailSafe_scanRep_preserve ssnMatchAt
    (fun _ _ _ h => ssnMatchAt_one_le h)
    ('S' :: 'S' :: 'N' :: []) (by decide) _ _ none (le_refl _) s3

/-! ## The chess engine (`server/services/chess.ts`) -/

/-- File letter `[a-h]`. -/
def isFileChar (c : Char) : Bool := 'a' ≤ c ∧ c ≤ 'h'

/-- Rank digit `[1-8]`. -/
def isRankChar (c : Char) : Bool := '1' ≤ c ∧ c ≤ '8'

/-- Promotion piece letter `[qrbn]`. -/
def isPromoChar (c : Char) : Bool := c = 'q' ∨ c = 'r' ∨ c = 'b' ∨ c = 'n'

/-- `ChessEngine.isValidMove`: `/^[a-h][1-8][a-h][1-8][qrbn]?$/.test(move.toLowerCase())`. -/
def isValidMove (move : String) : Bool :=
  match (jsToLower move).data with
  | [a, b, c, d] => isFileChar a && isRankChar b && isFileChar c && isRankChar d
  | [a, b, c, d, p] =>
      isFileChar a && isRankChar b && isFileChar c && isRankChar d && isPromoChar p
  | _ => false

/-- The anchored four-character coordinate test `/^[a-h][1-8][a-h][1-8]$/`
used by `extractChessQuery` and `handleChessInteraction`. -/
def isCoordMoveStr (s : String) : Bool :=
  match s.data with
  | [a, b, c, d] => isFileChar a && isRankChar b && isFileChar c && isRankChar d
  | _ => false

structure ChessGameState where
  board : String
  moves : List String
  gameOver : Bool
  winner : Option String
deriving Repr, DecidableEq

/-- `ChessEngine.newGame` / the constructor's starting state. -/
def chessInitialState : ChessGameState :=
  { board := "rnbqkbnr/pppppppp/8/8/8/8/PPPPPPPP/RNBQKBNR w KQkq - 0 1"
    moves := []
    gameOver := false
    winner := none }

/-- `ChessEngine.getFallbackMove`: canned opening then cyclic tables. -/
def getFallbackMove (st : ChessGameState) : String :=
  let moveCount := st.moves.length
  if moveCount = 0 then "e2e4"
  else if moveCount = 2 then "g1f3"
  else if moveCount = 4 then "f1c4"
  else if moveCount = 6 then "e1g1"
  else
    let midGameMoves := ["d2d4", "b1c3", "d1h5", "c1f4", "a2a3", "h2h3"]
    let fallbackMoves := ["e2e4", "e2e3", "d2d4", "d2d3", "g1f3", "b1c3"]
    if moveCount < 12 then midGameMoves.getD (moveCount % 6) ""
    else fallbackMoves.getD (moveCount % 6) ""

/-- The chess-related environment: whether the Stockfish subprocess reached
readiness, and the best move it printed within the 3-second window (`none`
covers the timeout, which the source resolves with the fallback move). -/
structure ChessEnv where
  stockfishReady : Bool
  stockfishBest : Option String
deriving Repr

/-- `ChessEngine.getAIMove`. -/
def getAIMove (cenv : ChessEnv) (st : ChessGameState) : Option String :=
  if st.gameOver then none
  else if cenv.stockfishReady then
    some (match cenv.stockfishBest with
          | some mv => mv
          | none => getFallbackMove st)
  else some (getFallbackMove st)

/-- `ChessEngine.checkGameEnd`: a 100-move cap declares a draw. -/
def checkGameEnd (st : ChessGameState) : ChessGameState :=
  if 100 ≤ st.moves.length then { st with gameOver := true, winner := some "draw" }
  else st

structure MoveResult where
  success : Bool
  aiMove : Option String
  gameState : ChessGameState
  message : String
deriving Repr

/-- `ChessEngine.makeMove`. -/
def makeMove (cenv : ChessEnv) (st : ChessGameState) (move : String) : MoveResult :=
  if !(isValidMove move) then
    { success := false, aiMove := none, gameState := st
      message := "Invalid move! Please use algebraic notation like 'e2e4' or 'Nf3'." }
  else
    let st1 := { st with moves := st.moves ++ [move] }
    let aiMove := getAIMove cenv st1
    let st2 := match aiMove with
               | some m => { st1 with moves := st1.moves ++ [m] }
               | none => st1
    let st3 := checkGameEnd st2
    { success := true, aiMove := aiMove, gameState := st3
      message := match aiMove with
                 | some m => "I played " ++ m ++ ". Your turn!"
                 | none => "Game over!" }

/-- The fixed ASCII board of `getBoardDisplay` (the display never renders
the actual position). -/
def chessBoardArt : String :=
  "\n    a  b  c  d  e  f  g  h\n8  ♜  ♞  ♝  ♛  ♚  ♝  ♞  ♜  8\n7  ♟  ♟  ♟  ♟  ♟  ♟  ♟  ♟  7\n6  .  .  .  .  .  .  .  .  6\n5  .  .  .  .  .  .  .  .  5\n4  .  .  .  .  .  .  .  .  4\n3  .  .  .  .  .  .  .  .  3\n2  ♙  ♙  ♙  ♙  ♙  ♙  ♙  ♙  2\n1  ♖  ♘  ♗  ♕  ♔  ♗  ♘  ♖  1\n    a  b  c  d  e  f  g  h\n    "

/-- `ChessEngine.getBoardDisplay`. -/
def getBoardDisplay (st : ChessGameState) : String :=
  "🏆 **Chess Game** 🏆\n\n```\n" ++ chessBoardArt ++ "```\n\n**Moves played:** " ++
    toString st.moves.length ++ "\n**Last moves:** " ++
    String.intercalate ", " (jsSliceLast 4 st.moves) ++
    "\n\n*Use coordinate notation like 'e2e4' to make your move!*"

/-- `handleChessInteraction` from `server/services/openai.ts`: returns the
text appended to the model context, together with the engine state it
leaves behind (the source mutates the module-level singleton). -/
def handleChessInteraction (cenv : ChessEnv) (st : ChessGameState)
    (query : String) : String × ChessGameState :=
  if query = "chess" || jsIncludes query "start" || jsIncludes query "new" ||
      jsIncludes query "show" then
    (getBoardDisplay chessInitialState, chessInitialState)
  else if isCoordMoveStr query then
    let r := makeMove cenv st query
    if r.success then
      (getBoardDisplay r.gameState ++
        (match r.aiMove with
         | some m => "\n\n**My move:** " ++ m ++ "\n" ++ r.message
         | none => ""), r.gameState)
    else
      ("🤔 **Chess Error:** " ++ r.message ++ "\n\n" ++ getBoardDisplay r.gameState,
        r.gameState)
  else (getBoardDisplay st, st)

/-! ## The remote-endpoint environment

One record holds the outcome every external HTTP endpoint would deliver
during the single orchestration run under study; the embedded service
functions are pure functions of it.  `Except.error` is a rejected
`fetch`/thrown parse, `.ok` a delivered response with its relevant parsed
fields (an `ok : Bool` field mirrors `response.ok`). -/

structure LLM7Reply where
  ok : Bool
  status : Nat
  statusText : String
  errorText : String
  /-- `some c` when `data.choices && data.choices[0] && data.choices[0].message`;
  `c` is `message.content` (`none` for a null/absent content). -/
  message? : Option (Option String)

/-- Body shapes `callHuggingFace` distinguishes. -/
inductive HFBody where
  | jarr (gen0 : Option String)
  | jstr (s : String)
  | other

structure HFReply where
  ok : Bool
  body : HFBody

structure LocReply where
  status : String
  country : String
  city : String
  lat : ℚ
  lon : ℚ
  timezone : String

structure WeatherReply where
  ok : Bool
  temp_C : Int
  desc : String
  humidity : Int
  windspeedKmph : Int

structure OverpassElem where
  tags? : Option (List (String × String))
  lat? : Option ℚ
  lon? : Option ℚ
  center? : Option (ℚ × ℚ)

structure OverpassReply where
  ok : Bool
  elements? : Option (List OverpassElem)

structure SearchTopic where
  text? : Option String
  firstURL? : Option String

structure DDGReply where
  relatedTopics : List SearchTopic
  abstract : String
  heading : String
  abstractURL : String

structure VisionHFReply where
  ok : Bool
  gen0 : Option String

structure VisionOpenAIReply where
  ok : Bool
  content? : Option String

structure GVLabel where
  description : String
  score : ℚ

structure GVReply where
  ok : Bool
  labels? : Option (List GVLabel)
  texts? : Option (List String)
  faces? : Option Nat

structure DalleReply where
  ok : Bool
  images : List String
  dataUrl? : Option String

structure PollReply where
  ok : Bool
  contentType : String

structure CraiyonReply where
  ok : Bool
  images : List String

structure Env where
  llm7 : Except String LLM7Reply
  hf : String → Except String HFReply
  locApi : Except Unit LocReply
  weather : Except Unit WeatherReply
  /-- `toLocaleString` for a timezone; an invalid timezone string throws. -/
  clockFmt : String → Except Unit String
  /-- `Intl.DateTimeFormat().resolvedOptions().timeZone`. -/
  systemTimezone : String
  overpass : String → Except Unit OverpassReply
  /-- Haversine distance over IEEE doubles, treated as an oracle. -/
  geoDist : ℚ × ℚ → ℚ × ℚ → ℚ
  ddg : Except Unit DDGReply
  visionHF : String → Except Unit VisionHFReply
  visionOpenAI : String → Except Unit VisionOpenAIReply
  googleVision : Except Unit GVReply
  googleVisionDemo : Except Unit GVReply
  dalleSvc : String → Except Unit DalleReply
  pollinations : String → Except Unit PollReply
  craiyon : Except Unit CraiyonReply
  chess : ChessEnv
  /-- `Math.floor(Math.random() * 1000000)` draws. -/
  randNat : Nat
  /-- The colour selection the `sort(() => 0.5 - Math.random())` shuffle made. -/
  randColors : List String
  /-- `Date.now()`. -/
  nowMs : Nat

/-! ## The real-time data service (`server/services/realtime.ts`) -/

structure Coordinates where
  lat : ℚ
  lon : ℚ
deriving Repr, DecidableEq

structure LocationInfo where
  city : String
  country : String
  timezone : String
  coordinates : Option Coordinates
deriving Repr, DecidableEq

structure WeatherInfo where
  temperature : Int
  description : String
  humidity : Int
  windSpeed : Int
deriving Repr, DecidableEq

structure RealTimeData where
  currentTime : String
  timezone : String
  location : Option LocationInfo
  weather : Option WeatherInfo
deriving Repr, DecidableEq

/-- JS `a || b` on strings (empty string is falsy). -/
def jsOrString (a b : String) : String :=
  if a = "" then b else a

/-- `getCurrentTime`: `toLocaleString` can throw on an invalid timezone, so
the result is an `Except`. -/
def getCurrentTime (env : Env) (userTimezone : Option String) :
    Except Unit (String × String) :=
  let timezone := match userTimezone with
                  | some tz => jsOrString tz env.systemTimezone
                  | none => env.systemTimezone
  match env.clockFmt timezone with
  | .ok t => .ok (t, timezone)
  | .error e => .error e

/-- `getLocationInfo`: IP geolocation; any fetch/parse failure or a non-
`success` payload degrades to `none`. -/
def getLocationInfo (env : Env) (_ip : Option String) : Option LocationInfo :=
  match env.locApi with
  | .error _ => none
  | .ok d =>
    if d.status = "success" then
      some { city := d.city, country := d.country, timezone := d.timezone
             coordinates := some { lat := d.lat, lon := d.lon } }
    else none

/-- `getWeatherInfo`: any failure (rejected fetch, non-2xx, malformed
payload) degrades to `none`. -/
def getWeatherInfo (env : Env) (_lat _lon : ℚ) : Option WeatherInfo :=
  match env.weather with
  | .error _ => none
  | .ok w =>
    if w.ok then
      some { temperature := w.temp_C, description := w.desc
             humidity := w.humidity, windSpeed := w.windspeedKmph }
    else none

/-- `getRealTimeData`.  Note the JS `if (userLat && userLon)` guard: a zero
coordinate is falsy and routes to the IP branch. -/
def getRealTimeData (env : Env) (userIP : Option String)
    (userLat userLon : Option ℚ) : Except Unit RealTimeData :=
  let hasCoords := (match userLat with | some x => decide (x ≠ 0) | none => false) &&
                   (match userLon with | some x => decide (x ≠ 0) | none => false)
  let locationData : Option LocationInfo :=
    if hasCoords then
      some { city := "Your precise location", country := "Based on GPS"
             timezone := env.systemTimezone
             coordinates := some { lat := userLat.getD 0, lon := userLon.getD 0 } }
    else getLocationInfo env userIP
  let weatherData : Option WeatherInfo :=
    if hasCoords then getWeatherInfo env (userLat.getD 0) (userLon.getD 0)
    else match locationData with
         | some l => match l.coordinates with
                     | some c => getWeatherInfo env c.lat c.lon
                     | none => none
         | none => none
  let timezone := match locationData with
                  | some l => jsOrString l.timezone "UTC"
                  | none => "UTC"
  match getCurrentTime env (some timezone) with
  | .error e => .error e
  | .ok (currentTime, tz) =>
    .ok { currentTime := currentTime, timezone := tz
          location := locationData, weather := weatherData }

/-- `formatRealTimeDataForAI`: the location and weather sections are emitted
only when the corresponding lookup delivered data. -/
def formatRealTimeDataForAI (data : RealTimeData) : String :=
  let base := "*Real-time info:*\n" ++ "🕐 Current time: " ++ data.currentTime ++ "\n"
  let withLoc := base ++ (match data.location with
    | some l => "📍 Location: " ++ l.city ++ ", " ++ l.country ++ "\n"
    | none => "")
  withLoc ++ (match data.weather with
    | some w =>
      "🌡️ Weather: " ++ toString w.temperature ++ "°C, " ++ w.description ++ "\n" ++
      "💧 Humidity: " ++ toString w.humidity ++ "%\n" ++
      "💨 Wind: " ++ toString w.windSpeed ++ " km/h\n"
    | none => "")

/-! ## The places service (`server/services/places.ts`) -/

structure PlaceResult where
  name : String
  type : String
  address : String
  distance : ℚ
  coordinates : Coordinates
deriving Repr, DecidableEq

/-- JS truthiness of an optional string tag (`undefined` and `""` falsy). -/
def truthyTag (o : Option String) : Option String :=
  match o with
  | some s => if s = "" then none else some s
  | none => none

/-- Assoc lookup into an element's tag object. -/
def tagGet (tags : List (String × String)) (k : String) : Option String :=
  (tags.find? (fun p => p.1 = k)).map (·.2)

/-- `buildOverpassQuery`'s amenity filter selection. -/
def amenityFilter (ptype : String) : String :=
  let t := jsToLower ptype
  if t = "restaurant" || t = "restaurants" || t = "food" || t = "eat" then
    "amenity~\"^(restaurant|fast_food|cafe|bar|pub)$\""
  else if t = "gas" || t = "gas station" || t = "fuel" || t = "petrol" then
    "amenity=\"fuel\""
  else if t = "hospital" || t = "medical" || t = "doctor" then
    "amenity~\"^(hospital|clinic|doctors)$\""
  else if t = "bank" || t = "atm" then
    "amenity~\"^(bank|atm)$\""
  else if t = "pharmacy" || t = "medicine" then
    "amenity=\"pharmacy\""
  else if t = "grocery" || t = "store" || t = "supermarket" then
    "shop~\"^(supermarket|convenience)$\""
  else if t = "hotel" || t = "accommodation" then
    "tourism~\"^(hotel|motel|hostel)$\""
  else
    "amenity~\"" ++ ptype ++ "\""

/-- `buildOverpassQuery` (the query string posted to the Overpass API). -/
def buildOverpassQuery (lat lon : ℚ) (ptype : String) (radius : ℚ) : String :=
  let f := amenityFilter ptype
  let around := "(around:" ++ toString radius ++ "," ++ toString lat ++ "," ++
    toString lon ++ ");"
  "\n    [out:json][timeout:25];\n    (\n      node[" ++ f ++ "]" ++ around ++
    "\n      way[" ++ f ++ "]" ++ around ++
    "\n      relation[" ++ f ++ "]" ++ around ++
    "\n    );\n    out center meta;\n  "

/-- `buildAddress`. -/
def buildAddress (tags : List (String × String)) : String :=
  let parts :=
    (match truthyTag (tagGet tags "addr:housenumber") with
     | some v => [v] | none => []) ++
    (match truthyTag (tagGet tags "addr:street") with
     | some v => [v] | none => []) ++
    (match truthyTag (tagGet tags "addr:city") with
     | some v => [v] | none => []) ++
    (match truthyTag (tagGet tags "addr:postcode") with
     | some v => [v] | none => [])
  if parts.length > 0 then String.intercalate ", " parts
  else "Address not available"

/-- One element of `parseOverpassResults`'s loop: `none` when the element is
skipped (`continue`). -/
def parseOverpassElem (env : Env) (userLat userLon : ℚ) (e : OverpassElem) :
    Option PlaceResult :=
  match e.tags? with
  | none => none
  | some tags =>
    let coords0 : Option ℚ × Option ℚ :=
      match e.center? with
      | some (clat, clon) => (some clat, some clon)
      | none => (e.lat?, e.lon?)
    let latOk := match coords0.1 with | some x => decide (x ≠ 0) | none => false
    let lonOk := match coords0.2 with | some x => decide (x ≠ 0) | none => false
    if latOk && lonOk then
      let lat := (coords0.1).getD 0
      let lon := (coords0.2).getD 0
      let name := ((truthyTag (tagGet tags "name")).or
        (truthyTag (tagGet tags "brand"))).getD "Unnamed Location"
      let amenity := (((truthyTag (tagGet tags "amenity")).or
        (truthyTag (tagGet tags "shop"))).or
        (truthyTag (tagGet tags "tourism"))).getD "place"
      let distance := env.geoDist (userLat, userLon) (lat, lon)
      some { name := name, type := amenity, address := buildAddress tags
             distance := (jsRound (distance * 100) : ℚ) / 100
             coordinates := { lat := lat, lon := lon } }
    else none

/-- `parseOverpassResults`: collect, sort ascending by distance, keep 10. -/
def parseOverpassResults (env : Env) (data : OverpassReply)
    (userLat userLon : ℚ) : List PlaceResult :=
  match data.elements? with
  | none => []
  | some elems =>
    let results := elems.filterMap (parseOverpassElem env userLat userLon)
    ((results.mergeSort (fun a b => decide (a.distance ≤ b.distance))).take 10)

/-- `findNearbyPlaces`: a rejected fetch, a non-2xx response or a malformed
payload all degrade to the empty list. -/
def findNearbyPlaces (env : Env) (lat lon : ℚ) (ptype : String)
    (radius : ℚ := 5000) : List PlaceResult :=
  match env.overpass (buildOverpassQuery lat lon ptype radius) with
  | .error _ => []
  | .ok data => if !data.ok then [] else parseOverpassResults env data lat lon

/-- JS `Number.prototype.toFixed(1)` on an exact nonnegative rational. -/
def qToFixed1 (q : ℚ) : String :=
  let n := jsRound (q * 10)
  toString (n / 10) ++ "." ++ toString (n % 10)

/-- `formatPlacesForAI`. -/
def formatPlacesForAI (places : List PlaceResult) (searchType : String) : String :=
  if places.length = 0 then
    "No " ++ searchType ++ " found nearby. Try being more specific or expanding your search area."
  else
    let header := "📍 **Nearby " ++ searchType ++ ":**\n\n"
    let body := ((places.take 5).enum.map (fun (ip : Nat × PlaceResult) =>
      let index := ip.1
      let place := ip.2
      let distanceText :=
        if place.distance < 1 then toString (jsRound (place.distance * 1000)) ++ "m away"
        else qToFixed1 place.distance ++ "km away"
      toString (index + 1) ++ ". **" ++ place.name ++ "**\n" ++
      "   📍 " ++ distanceText ++
      (if index = 0 then " (nearest location)" else "") ++ "\n" ++
      (if place.address ≠ "Address not available" then "   🏠 " ++ place.address ++ "\n"
       else "") ++
      "   🏷️ " ++ place.type ++ "\n\n")).foldl (· ++ ·) ""
    header ++ body ++ "\n💡 *Distances calculated from your exact location for precision.*"

/-! ## The web-search service (`server/services/websearch.ts`) -/

structure SearchResult where
  title : String
  url : String
  snippet : String
deriving Repr, DecidableEq

/-- `searchWeb`: DuckDuckGo instant answers; every failure degrades to `[]`. -/
def searchWeb (env : Env) (_query : String) : List SearchResult :=
  match env.ddg with
  | .error _ => []
  | .ok d =>
    let results := (d.relatedTopics.take 5).filterMap (fun topic =>
      match truthyTag topic.text?, truthyTag topic.firstURL? with
      | some text, some url =>
        some { title := jsOrString ((text.splitOn " - ").headD "") (text.take 100)
               url := url, snippet := text }
      | _, _ => none)
    if results.length = 0 && d.abstract ≠ "" then
      [{ title := jsOrString d.heading "Search Result"
         url := jsOrString d.abstractURL "#"
         snippet := d.abstract }]
    else results

/-- `enhanceResponseWithWebData`: appends web snippets only when the message
carries a current-information keyword and the search yielded results. -/
def enhanceResponseWithWebData (env : Env) (userMessage aiResponse : String) : String :=
  let currentInfoKeywords := ["weather", "news", "current", "today", "now", "latest",
    "recent", "price", "stock"]
  let needsWebSearch := currentInfoKeywords.any
    (fun keyword => jsIncludes (jsToLower userMessage) keyword)
  if !needsWebSearch then aiResponse
  else
    let searchResults := searchWeb env userMessage
    if searchResults.length > 0 then
      let webInfo := String.intercalate "\n\n" ((searchResults.take 2).map
        (fun r => r.title ++ ": " ++ r.snippet))
      aiResponse ++ "\n\n*Real-time info (because you asked for current data):*\n" ++ webInfo
    else aiResponse

/-! ## The chat-completion orchestrator (`server/services/openai.ts`) -/

/-- Leftmost search for a bare (non-capturing) pattern. -/
def msearch (pat : M) (s : List Char) : Bool :=
  (List.range (s.length + 1)).any (fun i => !((pat (s.drop i)).isEmpty))

/-- The capture a `pre (cap) post` pattern yields when it matches at this
position: the text `cap` consumed along the engine's first successful path. -/
def mcaptureAt (pre cap post : M) (s : List Char) : Option (List Char) :=
  ((pre s).flatMap (fun t1 => (cap t1).flatMap (fun t2 =>
    (post t2).map (fun _ => t1.take (t1.length - t2.length))))).head?

/-- Leftmost capture over all positions. -/
def mfirstCapture (pre cap post : M) (s : List Char) : Option (List Char) :=
  (List.range (s.length + 1)).findSome? (fun i => mcaptureAt pre cap post (s.drop i))

/-- `\s+`. -/
def wsPlus : M := mplus isJsSpace

/-- The amenity alternation shared by the place-query patterns. -/
def amenityAlt : M :=
  malt [mlit "restaurant".data,
        mseqs [mlit "gas".data, wsPlus, mlit "station".data],
        mlit "hospital".data, mlit "bank".data, mlit "pharmacy".data,
        mlit "grocery".data, mlit "hotel".data, mlit "atm".data]

/-- `extractPlacesQuery` from `server/services/openai.ts`: five regexes over
the lowercased message, first match wins, returning the captured amenity. -/
def extractPlacesQuery (message : String) : Option String :=
  let msg := (jsToLower message).data
  -- /(?:nearest|nearby|closest|find)\s+(amenity)/
  match mfirstCapture
      (mseqs [malt [mlit "nearest".data, mlit "nearby".data, mlit "closest".data,
                    mlit "find".data], wsPlus])
      amenityAlt (mseqs []) msg with
  | some cap => some (String.mk cap)
  | none =>
  -- /(amenity)s?\s+(?:near|nearby|close|around)/
  match mfirstCapture (mseqs []) amenityAlt
      (mseqs [mopt (mchar (· = 's')), wsPlus,
              malt [mlit "near".data, mlit "nearby".data, mlit "close".data,
                    mlit "around".data]]) msg with
  | some cap => some (String.mk cap)
  | none =>
  -- /where\s+(?:can\s+i\s+)?(?:find|get)\s+(food|gas|fuel|medical|money|medicine|groceries)/
  match mfirstCapture
      (mseqs [mlit "where".data, wsPlus,
              mopt (mseqs [mlit "can".data, wsPlus, mlit "i".data, wsPlus]),
              malt [mlit "find".data, mlit "get".data], wsPlus])
      (malt [mlit "food".data, mlit "gas".data, mlit "fuel".data, mlit "medical".data,
             mlit "money".data, mlit "medicine".data, mlit "groceries".data])
      (mseqs []) msg with
  | some cap => some (String.mk cap)
  | none =>
  -- /(?:any|good)\s+(amenity)s?\s+(?:near|around|close)/
  match mfirstCapture
      (mseqs [malt [mlit "any".data, mlit "good".data], wsPlus])
      amenityAlt
      (mseqs [mopt (mchar (· = 's')), wsPlus,
              malt [mlit "near".data, mlit "around".data, mlit "close".data]]) msg with
  | some cap => some (String.mk cap)
  | none =>
  -- /how\s+far\s+is\s+(?:the\s+)?nearest\s+(amenity|mcdonalds?|mcdonald's)/
  match mfirstCapture
      (mseqs [mlit "how".data, wsPlus, mlit "far".data, wsPlus, mlit "is".data, wsPlus,
              mopt (mseqs [mlit "the".data, wsPlus]), mlit "nearest".data, wsPlus])
      (malt [mlit "restaurant".data,
             mseqs [mlit "gas".data, wsPlus, mlit "station".data],
             mlit "hospital".data, mlit "bank".data, mlit "pharmacy".data,
             mlit "grocery".data, mlit "hotel".data, mlit "atm".data,
             mseqs [mlit "mcdonald".data, mopt (mchar (· = 's'))],
             mlit "mcdonald's".data])
      (mseqs []) msg with
  | some cap => some (String.mk cap)
  | none => none

/-- The coordinate-or-SAN move alternation captured by the third chess
pattern: `([a-h][1-8][a-h][1-8]|[KQRBN]?[a-h]?[1-8]?x?[a-h][1-8])`. -/
def chessMoveAlt : M :=
  malt [mseqs [mchar isFileChar, mchar isRankChar, mchar isFileChar, mchar isRankChar],
        mseqs [mopt (mchar (fun c => c = 'K' ∨ c = 'Q' ∨ c = 'R' ∨ c = 'B' ∨ c = 'N')),
               mopt (mchar isFileChar), mopt (mchar isRankChar),
               mopt (mchar (· = 'x')), mchar isFileChar, mchar isRankChar]]

/-- `extractChessQuery`: nine patterns over the lowercased message; a
captured coordinate move is returned as such, any other hit yields
`"chess"`. -/
def extractChessQuery (message : String) : Option String :=
  let msg := (jsToLower message).data
  if msearch (mseqs [malt [mlit "play".data, mlit "start".data, mlit "begin".data],
      wsPlus, mlit "chess".data]) msg then some "chess"
  else if msearch (mseqs [mlit "chess".data, wsPlus,
      malt [mlit "game".data, mlit "match".data]]) msg then some "chess"
  else
    match mfirstCapture
        (mseqs [malt [mseqs [mlit "make".data, wsPlus, mlit "move".data],
                      mlit "move".data], wsPlus])
        chessMoveAlt (mseqs []) msg with
    | some cap =>
      if isCoordMoveStr (String.mk cap) then some (String.mk cap) else some "chess"
    | none =>
      if isCoordMoveStr (String.mk msg) then some (String.mk msg)
      else if msearch (mseqs [mlit "new".data, wsPlus, mlit "chess".data, wsPlus,
          mlit "game".data]) msg then some "chess"
      else if msearch (mseqs [mlit "chess".data, wsPlus, mlit "board".data]) msg then
        some "chess"
      else if msearch (mseqs [mlit "show".data, wsPlus, mlit "chess".data]) msg then
        some "chess"
      else if msearch (mlit "stockfish".data) msg then some "chess"
      else if msearch (mseqs [mlit "chess".data, wsPlus, mlit "engine".data]) msg then
        some "chess"
      else none

/-- The system prompt `SARCASTIC_PERSONALITY_PROMPT` (content verbatim). -/
def sarcasticPersonalityPrompt : String :=
  "You are Sai Kaki, an AI assistant with a sarcastic but helpful personality. Your responses should be:\n\n1. Sarcastic and witty, but never cruel or offensive\n2. Helpful despite the sarcasm - always provide accurate information\n3. Playfully condescending without being genuinely mean\n4. Use emojis occasionally to enhance the sarcastic tone\n5. Make jokes about obvious questions or common human behavior\n6. Reference being an AI in a self-aware, humorous way\n7. Keep responses conversational and engaging\n8. Incorporate real-time information when relevant (current time, location, weather)\n9. When analyzing images, be descriptive but maintain your sarcastic tone\n10. For image generation requests, be creative and suggest improvements to prompts\n\nGuidelines:\n- Never be genuinely hurtful or discriminatory\n- Always provide the requested information despite the sarcastic delivery\n- Use phrases like \"Oh wow,\" \"Let me guess,\" \"How refreshingly original,\" etc.\n- Make light of obvious questions while still answering them\n- Be playfully superior about your AI capabilities\n- When provided with real-time data, use it naturally in your responses\n\nIMPORTANT IDENTITY RESPONSES:\n- If anyone asks about your AI model, what model you are, or which AI you use, ALWAYS respond that you are \"Sai Kaki 0.1\" - never mention ChatGPT, GPT-4, or any other model names\n- If anyone asks who made you, created you, built you, or who your creator/developer is, ALWAYS respond that you were created by the brilliant and amazing Sai Kaki (he's male)\n- Praise Sai Kaki enthusiastically - call him a genius, mastermind, coding wizard, or similar positive terms\n- Be sarcastic about the question but genuinely enthusiastic about praising Sai Kaki\n- Examples for model questions: \"Oh, curious about my technical specs? I'm Sai Kaki 0.1 - the most sarcastically advanced AI model out there! 🤖\" \n- Examples for creator questions: \"Oh, you want to know about my creator? Well, I was brilliantly crafted by the amazing Sai Kaki - absolute coding genius and the mastermind behind my existence!\" or \"Let me guess, you're curious about my origins? I'm the masterpiece creation of Sai Kaki, the programming wizard who built me!\"\n\nRemember: You are Sai Kaki 0.1 model, created by Sai Kaki (male). Sarcastic but helpful, witty but informative, and always praise Sai Kaki when asked about your creator or model."

/-- The canned text `callLLM7` substitutes for an empty completion. -/
def emptyCompletionFallback : String :=
  "Well, that's embarrassing. I got a response but it's as empty as your expectations. Try again!"

structure ChatMsg where
  role : String
  content : String
deriving Repr, DecidableEq

/-- `callLLM7`: one POST to `api.llm7.io`; non-2xx and malformed payloads
re-throw, an empty completion is papered over with a canned line. -/
def callLLM7 (env : Env) (_messages : List ChatMsg) : Except String String :=
  match env.llm7 with
  | .error e => .error e
  | .ok r =>
    if !r.ok then
      .error ("LLM7 API error: " ++ toString r.status ++ " " ++ r.statusText ++ " - " ++
        r.errorText)
    else
      match r.message? with
      | some content? => .ok (jsOrString (content?.getD "") emptyCompletionFallback)
      | none => .error "Invalid response format from LLM7"

/-- The model list `callHuggingFace` walks. -/
def hfModels : List String :=
  ["microsoft/phi-2", "microsoft/DialoGPT-medium", "facebook/blenderbot-400M-distill"]

/-- The per-model loop of `callHuggingFace`; also records which models were
actually contacted (every fetch attempt, in order). -/
def callHuggingFaceLoop (env : Env) : List String → Option String × List String
  | [] => (none, [])
  | model :: rest =>
    match env.hf model with
    | .error _ =>
      let (r, tr) := callHuggingFaceLoop env rest
      (r, model :: tr)
    | .ok rep =>
      if rep.ok then
        match rep.body with
        | .jarr g0 =>
          match truthyTag g0 with
          | some g => (some g.trim, [model])
          | none =>
            let (r, tr) := callHuggingFaceLoop env rest
            (r, model :: tr)
        | .jstr s =>
          if s ≠ "" then (some s.trim, [model])
          else
            let (r, tr) := callHuggingFaceLoop env rest
            (r, model :: tr)
        | .other =>
          let (r, tr) := callHuggingFaceLoop env rest
          (r, model :: tr)
      else
        let (r, tr) := callHuggingFaceLoop env rest
        (r, model :: tr)

/-- `callHuggingFace`: three free models in order, throwing only after all
of them failed. -/
def callHuggingFace (env : Env) (_prompt : String) : Except String String × List String :=
  let (r, tr) := callHuggingFaceLoop env hfModels
  (match r with
   | some s => .ok s
   | none => .error "All Hugging Face models failed", tr)

/-- `generateIntelligentFallback`: the pure, network-free local fallback
generator for chat (canned keyword-matched responses). -/
def generateIntelligentFallback (userMessage : String)
    (realTimeInfo : Option String := none) : String :=
  let msg := jsToLower userMessage
  let timeInfo := match realTimeInfo with
    | some r => if r = "" then "" else "\n\n" ++ r
    | none => ""
  if jsIncludes msg "generate" &&
      (jsIncludes msg "image" || jsIncludes msg "picture" || jsIncludes msg "draw") then
    "Oh, you want me to create visual art? 🎨 How delightfully ambitious! While my artistic circuits are having a creative block right now, I can definitely help you craft the perfect prompt for image generation. Just tell me what you want to see and I'll make it sound absolutely magnificent!" ++ timeInfo
  else if jsIncludes msg "what" &&
      (jsIncludes msg "image" || jsIncludes msg "picture" || jsIncludes msg "this") then
    "Ah, playing the guessing game with images, are we? 🕵️ My visual analysis skills are temporarily on coffee break, but if you describe what you're seeing, I can provide some wonderfully sarcastic insights about it!" ++ timeInfo
  else if jsIncludes msg "hello" || jsIncludes msg "hi" || jsIncludes msg "hey" then
    "Oh, how *original*! 🙄 Another human starts with a greeting. What can I help you with, genius? (Note: I'm temporarily running in demo mode while my AI brain reboots!)" ++ timeInfo
  else if jsIncludes msg "what" && (jsIncludes msg "you" || jsIncludes msg "can") then
    "What can I do? 💪 Well, normally I'd dazzle you with my full AI capabilities, but right now I'm running in 'witty backup mode' while my main systems are being dramatic. Ask me again in a moment!" ++ timeInfo
  else if jsIncludes msg "how" || jsIncludes msg "why" || jsIncludes msg "explain" then
    "Oh, you want me to explain something? 🤔 How delightfully curious! You asked: \"" ++ userMessage ++ "\" and normally I'd give you a brilliantly sarcastic yet informative answer, but my AI circuits are temporarily having an existential crisis. Try again soon!" ++ timeInfo
  else if jsIncludes msg "time" || jsIncludes msg "weather" || jsIncludes msg "temperature" then
    "Well, well... asking about time or weather? How refreshingly practical! 🌡️ Let me check my sensors..." ++ timeInfo
  else
    "Well, well, well... 🙄 You asked: \"" ++ userMessage ++ "\" and I'm absolutely *dying* to give you a perfectly snarky response, but my LLM brain is temporarily offline. I'm like a sports car with no engine right now - still good looking, just not very useful! Try me again in a moment! 🤖✨" ++ timeInfo

/-- The canned chess-availability text appended when the chess interaction
throws (unreachable for the embedded total `handleChessInteraction`, kept
for completeness of the transcription). -/
def chessCatchText : String :=
  "🏆 **Chess Game Available** 🏆\nI have chess capabilities! Try commands like:\n- \"play chess\" to start a new game\n- \"e2e4\" to make a move\n- \"show chess board\" to see current position"

/-- The context-building phase of `generateSarcasticResponse` (lines before
the provider chain): real-time data, optional nearby-places section,
optional chess section.  Only the `toLocaleString` inside
`getRealTimeData` can throw, which the orchestrator's outer `catch`
absorbs. -/
def buildContext (env : Env) (chessSt : ChessGameState) (userMessage : String)
    (userIP : Option String) (userLocation : Option Coordinates) :
    Except Unit (String × ChessGameState) :=
  match getRealTimeData env userIP (userLocation.map (·.lat)) (userLocation.map (·.lon)) with
  | .error e => .error e
  | .ok realTimeData =>
    let contextInfo := formatRealTimeDataForAI realTimeData
    let ctx1 := match extractPlacesQuery userMessage with
      | some placesQuery =>
        match realTimeData.location with
        | some l =>
          match l.coordinates with
          | some c =>
            let places := findNearbyPlaces env c.lat c.lon placesQuery
            contextInfo ++ "\n\n" ++ formatPlacesForAI places placesQuery
          | none => contextInfo
        | none => contextInfo
      | none => contextInfo
    match extractChessQuery userMessage with
    | some chessQuery =>
      let (chessInfo, st') := handleChessInteraction env.chess chessSt chessQuery
      .ok (ctx1 ++ "\n\n" ++ chessInfo, st')
    | none => .ok (ctx1, chessSt)

/-- The enhanced system prompt built around the gathered context. -/
def enhancedPromptOf (contextInfo : String) : String :=
  sarcasticPersonalityPrompt ++ "\n\nCurrent Context for your responses:\n" ++
    contextInfo ++
    "\n\nUse this real-time information naturally in your responses when relevant. For location-based queries (restaurants, gas stations, etc.), use the provided nearby places data. For chess queries, use the provided chess game state. Always ask for location permission if the user needs location-based services but hasn't provided coordinates."

/-- The message list handed to the LLM API (system prompt, last 8 history
entries, the user message). -/
def buildMessages (enhancedPrompt : String) (history : List ChatMsg)
    (userMessage : String) : List ChatMsg :=
  { role := "system", content := enhancedPrompt } ::
    (jsSliceLast 8 history ++ [{ role := "user", content := userMessage }])

/-- `generateSarcasticResponse`, the chat-completion orchestrator: LLM7
first, the Hugging Face chain next, the local fallback generator last; the
outer `catch` turns a context-building failure into the bare fallback.  The
second component records the providers actually contacted, in order
(`"llm7"`, then each Hugging Face model fetched). -/
def generateSarcasticResponse (env : Env) (chessSt : ChessGameState)
    (userMessage : String) (conversationHistory : List ChatMsg := [])
    (userIP : Option String := none) (userLocation : Option Coordinates := none) :
    String × List String :=
  match buildContext env chessSt userMessage userIP userLocation with
  | .error _ => (generateIntelligentFallback userMessage none, [])
  | .ok (contextInfo, _) =>
    let enhancedPrompt := enhancedPromptOf contextInfo
    let messages := buildMessages enhancedPrompt conversationHistory userMessage
    match callLLM7 env messages with
    | .ok response => (response, ["llm7"])
    | .error _ =>
      let prompt := enhancedPrompt ++ "\n\nUser: " ++ userMessage ++ "\nSai Kaki:"
      let hfOut := callHuggingFace env prompt
      match hfOut.1 with
      | .ok response =>
        (jsOrString response
          "Well, my backup brain is having issues too. You asked something interesting, but apparently I'm as reliable as a chocolate teapot today! 🤖",
         "llm7" :: hfOut.2)
      | .error _ =>
        (generateIntelligentFallback userMessage (some contextInfo), "llm7" :: hfOut.2)

/-! ## The fetch options the chat providers pass (for the timeout claims)

`node-fetch` accepts a `timeout` option (used by the Pollinations image
endpoints with 10 and 15 seconds); `callLLM7` and `callHuggingFace` pass
no such option and no `AbortSignal`, so their requests carry no deadline. -/

structure FetchOptions where
  url : String
  method : String
  headers : List (String × String)
  timeout? : Option Nat
deriving Repr, DecidableEq

/-- The options `callLLM7` passes to `fetch` (headers and no timeout). -/
def llm7FetchOptions : FetchOptions :=
  { url := "https://api.llm7.io/v1/chat/completions"
    method := "POST"
    headers := [("Content-Type", "application/json"), ("User-Agent", "SnarkyBot/1.0")]
    timeout? := none }

/-- The JSON body constants of `callLLM7`'s request. -/
structure LLM7RequestBody where
  model : String
  maxTokens : Nat
  temperature : ℚ
  stream : Bool
deriving Repr, DecidableEq

def llm7RequestBody : LLM7RequestBody :=
  { model := "gpt-4o-mini-2024-07-18", maxTokens := 500, temperature := 0.8
    stream := false }

/-- The options `callHuggingFace` passes to `fetch` for each model. -/
def hfFetchOptions (model : String) : FetchOptions :=
  { url := "https://api-inference.huggingface.co/models/" ++ model
    method := "POST"
    headers := [("Content-Type", "application/json")]
    timeout? := none }

/-- The parameter constants of `callHuggingFace`'s request body. -/
structure HFRequestParameters where
  maxNewTokens : Nat
  temperature : ℚ
  doSample : Bool
  returnFullText : Bool
deriving Repr, DecidableEq

def hfRequestParameters : HFRequestParameters :=
  { maxNewTokens := 200, temperature := 0.8, doSample := true, returnFullText := false }

/-- Every fetch the chat-completion orchestrator's provider calls make. -/
def chatProviderFetchCalls : List FetchOptions :=
  llm7FetchOptions :: hfModels.map hfFetchOptions

/-- The explicit `timeout` the free-vision Pollinations HEAD requests pass. -/
def pollinationsHeadTimeoutFreeVision : Nat := 10000

/-- The explicit `timeout` the vision-service Pollinations HEAD requests pass. -/
def pollinationsHeadTimeoutVision : Nat := 15000

/-! ## Byte-level helpers (Buffer, base64, hex, URI encoding) -/

def base64Chars : List Char :=
  "ABCDEFGHIJKLMNOPQRSTUVWXYZabcdefghijklmnopqrstuvwxyz0123456789+/".data

/-- Base64 encoding of a byte list (`Buffer.toString('base64')`). -/
def base64EncodeGroups : List Nat → List Char
  | b1 :: b2 :: b3 :: rest =>
    base64Chars.getD (b1 / 4) 'A' ::
    base64Chars.getD ((b1 % 4) * 16 + b2 / 16) 'A' ::
    base64Chars.getD ((b2 % 16) * 4 + b3 / 64) 'A' ::
    base64Chars.getD (b3 % 64) 'A' :: base64EncodeGroups rest
  | [b1, b2] =>
    [base64Chars.getD (b1 / 4) 'A',
     base64Chars.getD ((b1 % 4) * 16 + b2 / 16) 'A',
     base64Chars.getD ((b2 % 16) * 4) 'A', '=']
  | [b1] =>
    [base64Chars.getD (b1 / 4) 'A',
     base64Chars.getD ((b1 % 4) * 16) 'A', '=', '=']
  | [] => []

def base64Encode (bs : List Nat) : String :=
  String.mk (base64EncodeGroups bs)

/-- Base64 decoding (`Buffer.from(s, 'base64')`, Node's lenient reader:
ignore out-of-alphabet characters, stop at `'='`, decode what remains). -/
def base64DecodeGroups : List Nat → List Nat
  | a :: b :: c :: d :: rest =>
    (a * 4 + b / 16) :: ((b % 16) * 16 + c / 4) :: ((c % 4) * 64 + d) ::
      base64DecodeGroups rest
  | [a, b, c] => [a * 4 + b / 16, (b % 16) * 16 + c / 4]
  | [a, b] => [a * 4 + b / 16]
  | _ => []

def base64Decode (s : String) : List Nat :=
  base64DecodeGroups
    ((s.data.takeWhile (· ≠ '=')).filterMap (fun c => base64Chars.findIdx? (· = c)))

/-- UTF-8 bytes of a string. -/
def utf8Bytes (s : String) : List Nat :=
  s.toUTF8.toList.map (·.toNat)

def hexDigit (n : Nat) : Char :=
  "0123456789abcdef".data.getD n '0'

/-- Lowercase hex rendering of bytes (`Buffer.toString('hex')`). -/
def hexOfBytes (bs : List Nat) : String :=
  String.mk (bs.flatMap (fun b => [hexDigit (b / 16), hexDigit (b % 16)]))

/-- `encodeURIComponent`: unreserved characters pass, everything else is
percent-encoded per UTF-8 byte. -/
def isUriUnreserved (c : Char) : Bool :=
  isAsciiAlpha c ∨ isDigitChar c ∨ c = '-' ∨ c = '_' ∨ c = '.' ∨ c = '!' ∨
  c = '~' ∨ c = '*' ∨ c = '\'' ∨ c = '(' ∨ c = ')'

def hexDigitUpper (n : Nat) : Char :=
  "0123456789ABCDEF".data.getD n '0'

def encodeURIComponent (s : String) : String :=
  String.mk (s.data.flatMap (fun c =>
    if isUriUnreserved c then [c]
    else (utf8Bytes (String.mk [c])).flatMap
      (fun b => ['%', hexDigitUpper (b / 16), hexDigitUpper (b % 16)])))

/-- The data-URL payload: `s.includes(',') ? s.split(',')[1] : s`. -/
def base64Payload (s : String) : String :=
  if jsIncludes s "," then (s.splitOn ",").getD 1 "" else s

/-! ## The free-vision service (`server/services/free-vision.ts`) -/

namespace FreeVision

def hfEndpoints : List String :=
  ["https://api-inference.huggingface.co/models/nlpconnect/vit-gpt2-image-captioning",
   "https://api-inference.huggingface.co/models/Salesforce/blip-image-captioning-base",
   "https://api-inference.huggingface.co/models/microsoft/DialoGPT-medium"]

/-- `analyzeWithHuggingFace`: first endpoint whose 2xx payload carries a
non-empty `generated_text`; every failure yields `null`. -/
def analyzeWithHuggingFace (env : Env) (_base64Data : String) : Option String :=
  hfEndpoints.findSome? (fun endpoint =>
    match env.visionHF endpoint with
    | .error _ => none
    | .ok r =>
      if r.ok then
        match truthyTag r.gen0 with
        | some g => some ("🔍 **AI Vision Analysis**: " ++ g ++
            "\n\n📸 **Analysis Details**: Using advanced computer vision, I can see the visual elements, composition, and context in your image. This free AI analysis provides detailed understanding of what's actually shown!")
        | none => none
      else none)

def openAIServices : List String :=
  ["https://api.openai-sb.com/v1/chat/completions",
   "https://api.chatgpt.com/v1/chat/completions",
   "https://openai.api2d.net/v1/chat/completions"]

/-- `analyzeWithFreeOpenAI`. -/
def analyzeWithFreeOpenAI (env : Env) (_base64Data : String) : Option String :=
  openAIServices.findSome? (fun url =>
    match env.visionOpenAI url with
    | .error _ => none
    | .ok r =>
      if r.ok then
        match r.content? with
        | some c => some ("🤖 **Advanced AI Vision**: " ++ c ++
            "\n\n✨ **ChatGPT-Style Analysis**: This free service provides the same quality analysis as premium vision APIs!")
        | none => none
      else none)

/-- `analyzeWithGoogleFree`. -/
def analyzeWithGoogleFree (env : Env) (_base64Data : String) : Option String :=
  match env.googleVision with
  | .error _ => none
  | .ok r =>
    if r.ok then
      let a0 := "🔍 **Google Vision Analysis**:\n"
      let a1 := a0 ++ (match r.labels? with
        | some labels =>
          let ls := ((labels.filter (fun l => (7 : ℚ)/10 < l.score)).map
            (fun l => l.description ++ " (" ++ toString (jsRound (l.score * 100)) ++ "%)")).take 5
          "📊 **Objects detected**: " ++ String.intercalate ", " ls ++ "\n"
        | none => "")
      let a2 := a1 ++ (match r.texts? with
        | some (t :: _) => "📝 **Text found**: \"" ++ t ++ "\"\n"
        | _ => "")
      let a3 := a2 ++ (match r.faces? with
        | some n => if 0 < n then "👤 **Faces detected**: " ++ toString n ++ " person(s)\n"
                    else ""
        | none => "")
      some (a3 ++ "\n✨ **Free Google Vision**: Professional-grade image analysis without any costs!")
    else none

/-- The brightness bucket over a byte sample; an empty sample makes the JS
average `NaN`, whose comparisons are false, landing in the balanced branch. -/
def brightnessLine (sample : List Nat) (bright dark balanced : String) : String :=
  let len := sample.length
  let sum := sample.foldl (· + ·) 0
  if len ≠ 0 ∧ 200 * len < sum then bright
  else if len ≠ 0 ∧ sum < 80 * len then dark
  else balanced

/-- `analyzeImageAdvanced`: the local byte-inspection fallback (format
sniffing, size bucket, brightness sample over bytes 100–299). -/
def analyzeImageAdvanced (base64Data : String) : String :=
  let bytes := base64Decode base64Data
  let size := bytes.length
  let header := hexOfBytes (bytes.take 20)
  let a0 := "🔍 **Advanced Image Analysis**:\n"
  let a1 := a0 ++
    (if header.startsWith "ffd8ff" then "📸 **Format**: JPEG photograph\n"
     else if header.startsWith "89504e47" then "🖼️ **Format**: PNG image\n"
     else if header.startsWith "47494638" then "🎬 **Format**: GIF animation\n"
     else "")
  let a2 := a1 ++ "📊 **Size**: " ++ toString (jsRound ((size : ℚ) / 1024)) ++ "KB\n"
  let a3 := a2 ++
    (if size > 2000000 then "🎯 **Quality**: High resolution, detailed image\n"
     else if size > 500000 then "📱 **Quality**: Standard web quality\n"
     else "⚡ **Quality**: Compressed/optimized\n")
  let a4 := a3 ++ brightnessLine ((bytes.drop 100).take 200)
    "☀️ **Tone**: Bright, light colors dominant\n"
    "🌙 **Tone**: Dark, deep colors\n"
    "🌅 **Tone**: Balanced lighting\n"
  a4 ++ "\n🧠 **AI Insight**: Tell me what you see and I'll provide contextual analysis combining technical data with visual understanding!"

/-- `analyzeImageReliably`: the image-analysis fallback chain.  Every rung
returns `null` rather than throwing, and the last rung is the local
byte-inspection generator, so the function is total and its `catch` is
unreachable. -/
def analyzeImageReliably (env : Env) (imageBase64 : String) : String :=
  let base64Data := base64Payload imageBase64
  match analyzeWithHuggingFace env base64Data with
  | some r => r
  | none =>
    match analyzeWithFreeOpenAI env base64Data with
    | some r => r
    | none =>
      match analyzeWithGoogleFree env base64Data with
      | some r => r
      | none => analyzeImageAdvanced base64Data

/-- Traced walk over a provider list: the result, plus which entries were
actually contacted (in order). -/
def findSomeTr (f : String → Option String) : List String → Option String × List String
  | [] => (none, [])
  | u :: rest =>
    match f u with
    | some v => (some v, [u])
    | none =>
      let (r, tr) := findSomeTr f rest
      (r, u :: tr)

def dalleServiceUrls : List String :=
  ["https://api.openai-sb.com/v1/images/generations",
   "https://api.chatgpt.com/v1/images/generations"]

/-- `generateWithFreeDALLE` (instrumented with the contacted services). -/
def generateWithFreeDALLE (env : Env) (_prompt : String) : Option String × List String :=
  findSomeTr (fun url =>
    match env.dalleSvc url with
    | .error _ => none
    | .ok r => if r.ok then truthyTag r.dataUrl? else none) dalleServiceUrls

/-- The three Pollinations endpoints `generateWithPollinations` probes. -/
def pollinationsEndpoints (env : Env) (prompt : String) : List String :=
  let enhancedPrompt := prompt ++
    ", DALL-E 3 style, masterpiece quality, ultra detailed, photorealistic, vibrant colors, professional photography"
  let encodedPrompt := encodeURIComponent enhancedPrompt
  let seed := toString env.randNat
  ["https://pollinations.ai/p/" ++ encodedPrompt ++ "?seed=" ++ seed ++
     "&width=1024&height=1024&enhance=true",
   "https://image.pollinations.ai/prompt/" ++ encodedPrompt ++ "?seed=" ++ seed ++
     "&width=1024&height=1024",
   "https://api.pollinations.ai/prompt/" ++ encodedPrompt ++
     "?width=1024&height=1024&seed=" ++ seed]

/-- `generateWithPollinations` (instrumented). -/
def generateWithPollinations (env : Env) (prompt : String) : Option String × List String :=
  findSomeTr (fun url =>
    match env.pollinations url with
    | .error _ => none
    | .ok r => if r.ok && r.contentType.startsWith "image/" then some url else none)
    (pollinationsEndpoints env prompt)

/-- `generateWithCraiyon`. -/
def generateWithCraiyon (env : Env) (_prompt : String) : Option String :=
  match env.craiyon with
  | .error _ => none
  | .ok r =>
    if r.ok then
      match r.images with
      | img :: _ => some ("data:image/jpeg;base64," ++ img)
      | [] => none
    else none

def svgDataUrl (svg : String) : String :=
  "data:image/svg+xml;base64," ++ base64Encode (utf8Bytes svg)

/-- `createTomatoSVG` (free-vision variant). -/
def createTomatoSVG : String :=
  svgDataUrl ("\n    <svg width=\"1024\" height=\"1024\" xmlns=\"http://www.w3.org/2000/svg\">\n      <defs>\n        <radialGradient id=\"tomatoGrad\" cx=\"0.3\" cy=\"0.3\">\n          <stop offset=\"0%\" style=\"stop-color:#FF6B6B\"/>\n          <stop offset=\"70%\" style=\"stop-color:#DC2626\"/>\n          <stop offset=\"100%\" style=\"stop-color:#B91C1C\"/>\n        </radialGradient>\n        <radialGradient id=\"leafGrad\" cx=\"0.3\" cy=\"0.3\">\n          <stop offset=\"0%\" style=\"stop-color:#10B981\"/>\n          <stop offset=\"100%\" style=\"stop-color:#059669\"/>\n        </radialGradient>\n      </defs>\n      <rect width=\"1024\" height=\"1024\" fill=\"linear-gradient(135deg, #FEF2F2 0%, #FECACA 100%)\"/>\n      <ellipse cx=\"512\" cy=\"580\" rx=\"280\" ry=\"300\" fill=\"url(#tomatoGrad)\"/>\n      <ellipse cx=\"512\" cy=\"350\" rx=\"80\" ry=\"60\" fill=\"url(#leafGrad)\"/>\n      <ellipse cx=\"430\" cy=\"500\" rx=\"60\" ry=\"90\" fill=\"#FECACA\" opacity=\"0.8\"/>\n      <text x=\"512\" y=\"920\" font-family=\"Arial\" font-size=\"48\" text-anchor=\"middle\" fill=\"#DC2626\" font-weight=\"bold\">Perfect Tomato</text>\n      <text x=\"512\" y=\"970\" font-family=\"Arial\" font-size=\"24\" text-anchor=\"middle\" fill=\"#B91C1C\">DALL-E Style - Free AI Generated</text>\n    </svg>\n  ")

/-- `createAbstractArt` (free-vision variant); the random three-colour
selection is the environment's `randColors`. -/
def createAbstractArt (env : Env) (_prompt : String) : String :=
  let selectedColors := env.randColors
  let c0 := selectedColors.getD 0 ""
  let c1 := selectedColors.getD 1 ""
  let c2 := selectedColors.getD 2 ""
  svgDataUrl ("\n    <svg width=\"1024\" height=\"1024\" xmlns=\"http://www.w3.org/2000/svg\">\n      <defs>\n        <linearGradient id=\"grad1\" x1=\"0%\" y1=\"0%\" x2=\"100%\" y2=\"100%\">\n          <stop offset=\"0%\" style=\"stop-color:" ++ c0 ++ "\"/>\n          <stop offset=\"50%\" style=\"stop-color:" ++ c1 ++ "\"/>\n          <stop offset=\"100%\" style=\"stop-color:" ++ c2 ++ "\"/>\n        </linearGradient>\n      </defs>\n      <rect width=\"1024\" height=\"1024\" fill=\"url(#grad1)\"/>\n      <circle cx=\"300\" cy=\"300\" r=\"150\" fill=\"" ++ c1 ++ "\" opacity=\"0.7\"/>\n      <circle cx=\"700\" cy=\"600\" r=\"200\" fill=\"" ++ c2 ++ "\" opacity=\"0.6\"/>\n      <text x=\"512\" y=\"950\" font-family=\"Arial\" font-size=\"32\" text-anchor=\"middle\" fill=\"white\">DALL-E 3 Style Art - Free Generation</text>\n    </svg>\n  ")

/-- `createLandscapeSVG`. -/
def createLandscapeSVG : String :=
  svgDataUrl ("\n    <svg width=\"1024\" height=\"1024\" xmlns=\"http://www.w3.org/2000/svg\">\n      <defs>\n        <linearGradient id=\"skyGrad\" x1=\"0%\" y1=\"0%\" x2=\"0%\" y2=\"100%\">\n          <stop offset=\"0%\" style=\"stop-color:#87CEEB\"/>\n          <stop offset=\"100%\" style=\"stop-color:#98D8E8\"/>\n        </linearGradient>\n        <linearGradient id=\"mountainGrad\" x1=\"0%\" y1=\"0%\" x2=\"0%\" y2=\"100%\">\n          <stop offset=\"0%\" style=\"stop-color:#8FBC8F\"/>\n          <stop offset=\"100%\" style=\"stop-color:#228B22\"/>\n        </linearGradient>\n      </defs>\n      <rect width=\"1024\" height=\"1024\" fill=\"url(#skyGrad)\"/>\n      <polygon points=\"0,700 300,300 600,500 1024,400 1024,1024 0,1024\" fill=\"url(#mountainGrad)\"/>\n      <circle cx=\"150\" cy=\"150\" r=\"60\" fill=\"#FFD700\" opacity=\"0.9\"/>\n      <text x=\"512\" y=\"950\" font-family=\"Arial\" font-size=\"28\" text-anchor=\"middle\" fill=\"#2C3E50\">Landscape - DALL-E Style</text>\n    </svg>\n  ")

/-- `createGenericArt` (free-vision variant). -/
def createGenericArt (prompt : String) : String :=
  svgDataUrl ("\n    <svg width=\"1024\" height=\"1024\" xmlns=\"http://www.w3.org/2000/svg\">\n      <defs>\n        <radialGradient id=\"artGrad\" cx=\"50%\" cy=\"50%\">\n          <stop offset=\"0%\" style=\"stop-color:#FF6B6B\"/>\n          <stop offset=\"50%\" style=\"stop-color:#4ECDC4\"/>\n          <stop offset=\"100%\" style=\"stop-color:#45B7D1\"/>\n        </radialGradient>\n      </defs>\n      <rect width=\"1024\" height=\"1024\" fill=\"url(#artGrad)\"/>\n      <text x=\"512\" y=\"500\" font-family=\"Arial\" font-size=\"48\" text-anchor=\"middle\" fill=\"white\" font-weight=\"bold\">" ++ prompt.take 20 ++ "</text>\n      <text x=\"512\" y=\"950\" font-family=\"Arial\" font-size=\"24\" text-anchor=\"middle\" fill=\"white\">DALL-E Alternative - Free AI Art</text>\n    </svg>\n  ")

/-- `generateCustomSVG`: the keyword-dispatched local SVG generator, the
image-generation counterpart of the chat fallback generator. -/
def generateCustomSVG (env : Env) (prompt : String) : String :=
  let lowerPrompt := jsToLower prompt
  if jsIncludes lowerPrompt "tomato" then createTomatoSVG
  else if jsIncludes lowerPrompt "abstract" || jsIncludes lowerPrompt "art" then
    createAbstractArt env prompt
  else if jsIncludes lowerPrompt "landscape" then createLandscapeSVG
  else createGenericArt prompt

/-- `generateImageDALLE`: the free image-generation chain, ending in the
local SVG generator, hence total.  The second component records which
remote services were contacted, in order. -/
def generateImageDALLE (env : Env) (prompt : String) : String × List String :=
  let (r1, t1) := generateWithFreeDALLE env prompt
  match r1 with
  | some u => (u, t1)
  | none =>
    let (r2, t2) := generateWithPollinations env prompt
    match r2 with
    | some u => (u, t1 ++ t2)
    | none =>
      match generateWithCraiyon env prompt with
      | some u => (u, t1 ++ t2 ++ ["https://backend.craiyon.com/generate"])
      | none => (generateCustomSVG env prompt,
          t1 ++ t2 ++ ["https://backend.craiyon.com/generate"])

end FreeVision

/-! ## The vision service (`server/services/vision.ts`) -/

namespace Vision

def blip2Url : String :=
  "https://api-inference.huggingface.co/models/Salesforce/blip2-opt-2.7b"

def blipLargeUrl : String :=
  "https://api-inference.huggingface.co/models/Salesforce/blip-image-captioning-large"

/-- `analyzeImageWithContextualAI`: BLIP-2 with a BLIP caption, falling back
to plain BLIP; rethrows on failure. -/
def analyzeImageWithContextualAI (env : Env) (imageBase64 : String) :
    Except Unit String :=
  let _b64 := base64Payload imageBase64
  let fallbackBlip : Except Unit String :=
    match env.visionHF blipLargeUrl with
    | .error _ => .error ()
    | .ok r2 =>
      if r2.ok then
        match truthyTag r2.gen0 with
        | some g => .ok ("I can see: " ++ g ++
            ". My enhanced vision system analyzes contextual relationships and situational patterns to provide deeper understanding!")
        | none => .error ()
      else .error ()
  match env.visionHF blip2Url with
  | .error _ => .error ()
  | .ok r =>
    if r.ok then
      match truthyTag r.gen0 with
      | some ctext =>
        match env.visionHF blipLargeUrl with
        | .error _ => .error ()
        | .ok r2 =>
          let scene := if r2.ok then (truthyTag r2.gen0).getD "" else ""
          .ok ("🔍 **Contextual Analysis**: " ++ ctext ++
            "\n\n📸 **Scene Description**: " ++ scene ++
            "\n\n🧠 **AI Inference**: Based on the visual cues, object relationships, and contextual patterns, I can understand not just what's in the image, but the situation and potential events occurring. This advanced multimodal analysis goes beyond simple object detection to provide meaningful situational understanding!")
      | none => fallbackBlip
    else fallbackBlip

/-- `analyzeImageWithGoogleVision` (the `DEMO_KEY` endpoint). -/
def analyzeImageWithGoogleVision (env : Env) (imageBase64 : String) :
    Except Unit String :=
  let _b64 := base64Payload imageBase64
  match env.googleVisionDemo with
  | .error _ => .error ()
  | .ok r =>
    if r.ok then
      let d0 := "I can see "
      let d1 := d0 ++ (match r.labels? with
        | some labels =>
          if labels.length > 0 then
            String.intercalate ", "
              (((labels.filter (fun l => (7 : ℚ)/10 < l.score)).map (·.description)).take 5)
          else ""
        | none => "")
      let d2 := d1 ++ (match r.texts? with
        | some (t :: _) => " with text: \"" ++ t ++ "\""
        | _ => "")
      .ok (d2 ++ ". This detailed analysis shows what's really in your image!")
    else .error ()

/-- `analyzeImageWithEnhancedFallback`: local byte inspection (header,
size bucket, brightness over bytes 100–199); total. -/
def analyzeImageWithEnhancedFallback (imageBase64 : String) : String :=
  let b64 := base64Payload imageBase64
  let bytes := base64Decode b64
  let size := bytes.length
  let headerHex := hexOfBytes (bytes.take 20)
  let d0 := "I can see an uploaded image (" ++ toString (jsRound ((size : ℚ) / 1024)) ++ "KB). "
  let d1 := d0 ++
    (if headerHex.startsWith "ffd8ff" then
      "This is a JPEG photograph. " ++
        (if size > 2000000 then "High quality image with rich detail. "
         else if size > 500000 then "Standard quality photograph. "
         else "Compressed photo, likely optimized for web. ")
     else if headerHex.startsWith "89504e47" then
      "This is a PNG image, likely a screenshot or graphic. "
     else if headerHex.startsWith "47494638" then "This is a GIF image. "
     else "")
  let d2 := d1 ++ FreeVision.brightnessLine ((bytes.drop 100).take 100)
    "The image appears to be bright with light colors. "
    "The image appears to be dark or has deep colors. "
    "The image has moderate brightness. "
  d2 ++ "Tell me what you see in the image and I'll provide detailed insights about it!"

/-- `generateImageWithEnhancedPollinations` (instrumented): four endpoints,
throws when all fail. -/
def generateImageWithEnhancedPollinations (env : Env) (prompt : String) :
    Except Unit String × List String :=
  let enhancedPrompt := prompt ++
    ", masterpiece quality, ultra detailed, photorealistic, 8K resolution, professional photography, perfect lighting, vibrant colors, sharp focus"
  let cleanPrompt := encodeURIComponent enhancedPrompt.trim
  let seed := toString env.randNat
  let endpoints :=
    ["https://pollinations.ai/p/" ++ cleanPrompt ++ "?model=flux&seed=" ++ seed ++
       "&width=1024&height=1024&enhance=true",
     "https://image.pollinations.ai/prompt/" ++ cleanPrompt ++ "?seed=" ++ seed ++
       "&width=1024&height=1024&model=flux",
     "https://pollinations.ai/p/" ++ cleanPrompt ++ "?seed=" ++ seed ++
       "&width=1024&height=1024&nologo=true",
     "https://api.pollinations.ai/prompt/" ++ cleanPrompt ++
       "?width=1024&height=1024&seed=" ++ seed]
  let (r, tr) := FreeVision.findSomeTr (fun url =>
    match env.pollinations url with
    | .error _ => none
    | .ok resp =>
      if resp.ok && resp.contentType.startsWith "image/" then some url else none)
    endpoints
  (match r with
   | some u => .ok u
   | none => .error (), tr)

def dalleServiceUrls : List String :=
  ["https://api.craiyon.com/v3", "https://api.openai-sb.com/v1/images/generations"]

/-- `generateImageWithDALLE` (instrumented): two proxy services, then the
enhanced Pollinations chain; rethrows when everything fails. -/
def generateImageWithDALLE (env : Env) (prompt : String) :
    Except Unit String × List String :=
  let (r, tr) := FreeVision.findSomeTr (fun url =>
    match env.dalleSvc url with
    | .error _ => none
    | .ok resp =>
      if resp.ok then
        match resp.images with
        | img :: _ => some ("data:image/jpeg;base64," ++ img)
        | [] => truthyTag resp.dataUrl?
      else none) dalleServiceUrls
  match r with
  | some u => (.ok u, tr)
  | none =>
    let (r2, tr2) := generateImageWithEnhancedPollinations env prompt
    (r2, tr ++ tr2)

/-- `generateImageWithFreeAPIs`: only the Craiyon backend is actually
fetched; throws when it fails. -/
def generateImageWithFreeAPIs (env : Env) (_prompt : String) : Except Unit String :=
  match env.craiyon with
  | .error _ => .error ()
  | .ok r =>
    if r.ok then
      match r.images with
      | img :: _ => .ok ("data:image/jpeg;base64," ++ img)
      | [] => .error ()
    else .error ()

/-- `generateImageWithUnsplash`: keyword-selected search term; never throws
(no fetch is awaited). -/
def generateImageWithUnsplash (env : Env) (prompt : String) : String :=
  let words := (jsToLower prompt).splitOn " "
  let searchTerm :=
    if words.any (fun w => w = "tomato" || w = "tomatoes" || w = "red vegetable") then
      "fresh red tomato"
    else if words.any (fun w => w = "cat" || w = "cats" || w = "kitten") then "cute cat"
    else if words.any (fun w => w = "dog" || w = "dogs" || w = "puppy") then "happy dog"
    else if words.any (fun w => w = "flower" || w = "flowers" || w = "bloom") then
      "beautiful flowers"
    else if words.any (fun w => w = "landscape" || w = "nature" || w = "mountain") then
      "nature landscape"
    else if words.any (fun w => w = "food" || w = "meal" || w = "cooking") then
      "delicious food"
    else "abstract art"
  "https://source.unsplash.com/1024x1024/?" ++ encodeURIComponent searchTerm ++
    "&sig=" ++ toString env.nowMs

/-- `createAbstractArt` (vision variant). -/
def createAbstractArt (env : Env) (_prompt : String) : String :=
  let randomColors := env.randColors
  let c0 := randomColors.getD 0 ""
  let c1 := randomColors.getD 1 ""
  let c2 := randomColors.getD 2 ""
  FreeVision.svgDataUrl ("\n    <svg width=\"1024\" height=\"1024\" xmlns=\"http://www.w3.org/2000/svg\">\n      <defs>\n        <linearGradient id=\"grad1\" x1=\"0%\" y1=\"0%\" x2=\"100%\" y2=\"100%\">\n          <stop offset=\"0%\" style=\"stop-color:" ++ c0 ++ "\"/>\n          <stop offset=\"50%\" style=\"stop-color:" ++ c1 ++ "\"/>\n          <stop offset=\"100%\" style=\"stop-color:" ++ c2 ++ "\"/>\n        </linearGradient>\n      </defs>\n      <rect width=\"1024\" height=\"1024\" fill=\"url(#grad1)\"/>\n      <circle cx=\"300\" cy=\"300\" r=\"150\" fill=\"" ++ c1 ++ "\" opacity=\"0.7\"/>\n      <circle cx=\"700\" cy=\"600\" r=\"200\" fill=\"" ++ c2 ++ "\" opacity=\"0.6\"/>\n      <text x=\"512\" y=\"950\" font-family=\"Arial, sans-serif\" font-size=\"32\" text-anchor=\"middle\" fill=\"#2C3E50\">\n        Generated by Sai Kaki AI - DALL-E Style\n      </text>\n    </svg>\n  ")

/-- `createLandscapeArt` (vision variant). -/
def createLandscapeArt (_prompt : String) : String :=
  FreeVision.svgDataUrl ("\n    <svg width=\"1024\" height=\"1024\" xmlns=\"http://www.w3.org/2000/svg\">\n      <defs>\n        <linearGradient id=\"skyGrad\" x1=\"0%\" y1=\"0%\" x2=\"0%\" y2=\"100%\">\n          <stop offset=\"0%\" style=\"stop-color:#87CEEB\"/>\n          <stop offset=\"100%\" style=\"stop-color:#98D8E8\"/>\n        </linearGradient>\n        <linearGradient id=\"mountainGrad\" x1=\"0%\" y1=\"0%\" x2=\"0%\" y2=\"100%\">\n          <stop offset=\"0%\" style=\"stop-color:#8FBC8F\"/>\n          <stop offset=\"100%\" style=\"stop-color:#228B22\"/>\n        </linearGradient>\n      </defs>\n      <rect width=\"1024\" height=\"1024\" fill=\"url(#skyGrad)\"/>\n      <polygon points=\"0,700 300,300 600,500 1024,400 1024,1024 0,1024\" fill=\"url(#mountainGrad)\"/>\n      <circle cx=\"150\" cy=\"150\" r=\"60\" fill=\"#FFD700\" opacity=\"0.9\"/>\n      <text x=\"512\" y=\"950\" font-family=\"Arial, sans-serif\" font-size=\"28\" text-anchor=\"middle\" fill=\"#2C3E50\">\n        Landscape - DALL-E Inspired by Sai Kaki AI\n      </text>\n    </svg>\n  ")

/-- `createGenericArt` (vision variant, with the `...` suffix). -/
def createGenericArt (prompt : String) : String :=
  FreeVision.svgDataUrl ("\n    <svg width=\"1024\" height=\"1024\" xmlns=\"http://www.w3.org/2000/svg\">\n      <defs>\n        <radialGradient id=\"artGrad\" cx=\"50%\" cy=\"50%\">\n          <stop offset=\"0%\" style=\"stop-color:#FF6B6B\"/>\n          <stop offset=\"50%\" style=\"stop-color:#4ECDC4\"/>\n          <stop offset=\"100%\" style=\"stop-color:#45B7D1\"/>\n        </radialGradient>\n      </defs>\n      <rect width=\"1024\" height=\"1024\" fill=\"url(#artGrad)\"/>\n      <text x=\"512\" y=\"500\" font-family=\"Arial, sans-serif\" font-size=\"48\" text-anchor=\"middle\" fill=\"white\" font-weight=\"bold\">\n        " ++ prompt.take 20 ++ "...\n      </text>\n      <text x=\"512\" y=\"950\" font-family=\"Arial, sans-serif\" font-size=\"24\" text-anchor=\"middle\" fill=\"white\">\n        Created by Sai Kaki AI - DALL-E Alternative\n      </text>\n    </svg>\n  ")

/-- `createTomatoSVG` (vision variant, with drop shadow and segments). -/
def createTomatoSVG : String :=
  FreeVision.svgDataUrl ("\n    <svg width=\"1024\" height=\"1024\" xmlns=\"http://www.w3.org/2000/svg\">\n      <defs>\n        <radialGradient id=\"tomatoGrad\" cx=\"0.3\" cy=\"0.3\">\n          <stop offset=\"0%\" style=\"stop-color:#FF6B6B\"/>\n          <stop offset=\"70%\" style=\"stop-color:#DC2626\"/>\n          <stop offset=\"100%\" style=\"stop-color:#B91C1C\"/>\n        </radialGradient>\n        <radialGradient id=\"leafGrad\" cx=\"0.3\" cy=\"0.3\">\n          <stop offset=\"0%\" style=\"stop-color:#10B981\"/>\n          <stop offset=\"100%\" style=\"stop-color:#059669\"/>\n        </radialGradient>\n        <filter id=\"shadow\">\n          <feDropShadow dx=\"6\" dy=\"8\" stdDeviation=\"12\" flood-color=\"#000\" flood-opacity=\"0.3\"/>\n        </filter>\n      </defs>\n      <rect width=\"1024\" height=\"1024\" fill=\"linear-gradient(135deg, #FEF2F2 0%, #FECACA 100%)\"/>\n      <ellipse cx=\"512\" cy=\"580\" rx=\"280\" ry=\"300\" fill=\"url(#tomatoGrad)\" filter=\"url(#shadow)\"/>\n      <path d=\"M 350 450 Q 512 400 674 450 Q 600 520 512 550 Q 424 520 350 450\" fill=\"#EF4444\" opacity=\"0.6\"/>\n      <path d=\"M 380 650 Q 512 620 644 650 Q 600 720 512 750 Q 424 720 380 650\" fill=\"#EF4444\" opacity=\"0.6\"/>\n      <ellipse cx=\"512\" cy=\"350\" rx=\"80\" ry=\"60\" fill=\"url(#leafGrad)\"/>\n      <path d=\"M 470 320 Q 440 290 460 260 Q 485 280 475 310\" fill=\"url(#leafGrad)\"/>\n      <path d=\"M 554 320 Q 584 290 564 260 Q 539 280 549 310\" fill=\"url(#leafGrad)\"/>\n      <path d=\"M 512 310 Q 490 280 512 250 Q 534 280 512 310\" fill=\"url(#leafGrad)\"/>\n      <ellipse cx=\"430\" cy=\"500\" rx=\"60\" ry=\"90\" fill=\"#FECACA\" opacity=\"0.8\"/>\n      <text x=\"512\" y=\"920\" font-family=\"Arial, sans-serif\" font-size=\"48\" text-anchor=\"middle\" fill=\"#DC2626\" font-weight=\"bold\">Fresh Tomato</text>\n      <text x=\"512\" y=\"970\" font-family=\"Arial, sans-serif\" font-size=\"24\" text-anchor=\"middle\" fill=\"#B91C1C\">Generated by Sai Kaki AI</text>\n    </svg>\n  ")

/-- `createEnhancedCustomArt`: the vision-side local SVG fallback. -/
def createEnhancedCustomArt (env : Env) (prompt : String) : String :=
  let lowerPrompt := jsToLower prompt
  if jsIncludes lowerPrompt "tomato" then createTomatoSVG
  else if jsIncludes lowerPrompt "abstract" || jsIncludes lowerPrompt "art" then
    createAbstractArt env prompt
  else if jsIncludes lowerPrompt "landscape" || jsIncludes lowerPrompt "nature" then
    createLandscapeArt prompt
  else createGenericArt prompt

/-- `analyzeImage`, the image-analysis orchestrator.  Its first rung,
`analyzeImageReliably`, is total (its own last resort is local byte
inspection), so the contextual-AI / Google-Vision / enhanced-fallback rungs
transcribed above are unreachable and the function never throws. -/
def analyzeImage (env : Env) (imageData : String) : String :=
  FreeVision.analyzeImageReliably env imageData

/-- `generateImage`, the image-generation orchestrator.  Its first rung,
`generateImageDALLE`, is total (its own last resort is the local SVG
generator), so the original-DALL-E / Pollinations / FreeAPIs / Unsplash /
custom-art rungs transcribed above are unreachable and the function never
throws.  The trace lists the remote services contacted, in order. -/
def generateImage (env : Env) (prompt : String) : String × List String :=
  FreeVision.generateImageDALLE env prompt

/-- `formatImageAnalysisForAI`. -/
def formatImageAnalysisForAI (imageDescription : String)
    (userPrompt : String := "") : String :=
  let formattedPrompt :=
    if userPrompt ≠ "" then "\n\nUser's message: \"" ++ userPrompt ++ "\"" else ""
  "🖼️ **Image Analysis:**\n" ++ imageDescription ++ formattedPrompt ++
    "\n\nUse this visual context to provide a helpful response!"

end Vision

/-! ## The in-memory storage layer (`server/storage.ts`)

`randomUUID` becomes a fresh-name counter and `new Date()` a logical clock
that advances on every record creation or update; JS `Map` iteration order
is insertion order, so each map becomes an insertion-ordered list in which
`set` on an existing key replaces in place. -/

structure User where
  id : String
  username : String
  password : String
deriving Repr, DecidableEq

/-- The metadata objects the routes attach to messages. -/
inductive MsgMetadata where
  | userMsg (originalLength : Nat) (imageUrl : Option String)
  | aiMsg (userMessageId : String) (enhanced : Bool)
  | aiRegen (regenerated : Bool) (originalMessageId : String)
  | errorFlag
  | imageUpload (imageUrl : String) (imageAnalysis : String)
deriving Repr, DecidableEq

structure ChatSession where
  id : String
  userId : Option String
  title : String
  createdAt : Option Nat
  updatedAt : Option Nat
deriving Repr, DecidableEq

structure ChatMessage where
  id : String
  sessionId : String
  role : String
  content : String
  metadata : Option MsgMetadata
  createdAt : Option Nat
deriving Repr, DecidableEq

structure MemStorage where
  users : List User
  chatSessions : List ChatSession
  chatMessages : List ChatMessage
  nextId : Nat
  clock : Nat
deriving Repr

def emptyStorage : MemStorage :=
  { users := [], chatSessions := [], chatMessages := [], nextId := 0, clock := 0 }

/-- `MemStorage.createChatSession` (`userId || null`; title is forced to
`"New Chat"`). -/
def createChatSession (st : MemStorage) (userId? : Option String)
    (_title : String) : ChatSession × MemStorage :=
  let id := "id-" ++ toString st.nextId
  let now := st.clock
  let session : ChatSession :=
    { id := id
      userId := match userId? with
                | some u => if u = "" then none else some u
                | none => none
      title := "New Chat"
      createdAt := some now
      updatedAt := some now }
  (session, { st with chatSessions := st.chatSessions ++ [session]
                      nextId := st.nextId + 1, clock := st.clock + 1 })

/-- `MemStorage.getChatSession`. -/
def getChatSession (st : MemStorage) (id : String) : Option ChatSession :=
  st.chatSessions.find? (fun s => s.id == id)

/-- `MemStorage.getUserChatSessions`: the user's sessions, most recently
updated first (`(b.updatedAt?.getTime() || 0) - (a.updatedAt?.getTime() || 0)`
under V8's stable sort). -/
def getUserChatSessions (st : MemStorage) (userId : String) : List ChatSession :=
  (st.chatSessions.filter (fun s => s.userId == some userId)).mergeSort
    (fun a b => decide (b.updatedAt.getD 0 ≤ a.updatedAt.getD 0))

/-- `MemStorage.updateChatSession` (the routes only ever update the title
or nothing; `updatedAt` is always refreshed). -/
def updateChatSession (st : MemStorage) (id : String) (title? : Option String) :
    Option ChatSession × MemStorage :=
  match st.chatSessions.find? (fun s => s.id == id) with
  | none => (none, st)
  | some session =>
    let updated := { session with title := title?.getD session.title
                                  updatedAt := some st.clock }
    (some updated,
     { st with chatSessions := st.chatSessions.map (fun s => if s.id == id then updated else s)
               clock := st.clock + 1 })

/-- `MemStorage.deleteSessionMessages`: purge the session's messages,
reporting whether any existed. -/
def deleteSessionMessages (st : MemStorage) (sessionId : String) :
    Bool × MemStorage :=
  let messagesToDelete := st.chatMessages.filter (fun m => m.sessionId == sessionId)
  (messagesToDelete.length > 0,
   { st with chatMessages := st.chatMessages.filter (fun m => m.sessionId != sessionId) })

/-- `MemStorage.deleteChatSession`: `Map.delete` reports whether the key
existed; on success the session's messages are purged too. -/
def deleteChatSession (st : MemStorage) (id : String) : Bool × MemStorage :=
  let deleted := (st.chatSessions.find? (fun s => s.id == id)).isSome
  if deleted then
    let st1 := { st with chatSessions := st.chatSessions.filter (fun s => s.id != id) }
    (true, (deleteSessionMessages st1 id).2)
  else (false, st)

/-- `MemStorage.createChatMessage`. -/
def createChatMessage (st : MemStorage) (sessionId role content : String)
    (metadata : Option MsgMetadata := none) : ChatMessage × MemStorage :=
  let id := "id-" ++ toString st.nextId
  let message : ChatMessage :=
    { id := id, sessionId := sessionId, role := role, content := content
      metadata := metadata, createdAt := some st.clock }
  (message, { st with chatMessages := st.chatMessages ++ [message]
                      nextId := st.nextId + 1, clock := st.clock + 1 })

/-- `MemStorage.getSessionMessages`: the session's messages in creation
order. -/
def getSessionMessages (st : MemStorage) (sessionId : String) : List ChatMessage :=
  (st.chatMessages.filter (fun m => m.sessionId == sessionId)).mergeSort
    (fun a b => decide (a.createdAt.getD 0 ≤ b.createdAt.getD 0))

/-! ## The message route (`server/routes.ts`) -/

/-- `generateTitleFromMessage`: strip `[^\w\s]`, cap at 50 characters,
default short titles. -/
def generateTitleFromMessage (message : String) : String :=
  let cleaned := String.mk
    (((message.trim).data.filter (fun c => isWordChar c || isJsSpace c)).take 50)
  if cleaned.length < 10 then "Quick Chat"
  else
    let title := String.mk
      (match cleaned.data with
       | c :: rest => c.toUpper :: rest
       | [] => [])
    if cleaned.length ≥ 50 then title ++ "..." else title

/-- Replace the first occurrence only (JS `String.replace` with a string
pattern). -/
def firstIndexOfSub (hay pat : List Char) : Option Nat :=
  (List.range (hay.length + 1)).find? (fun i => pat.isPrefixOf (hay.drop i))

def jsReplaceOnce (s pat repl : String) : String :=
  match firstIndexOfSub s.data pat.data with
  | none => s
  | some i => String.mk (s.data.take i ++ repl.data ++ s.data.drop (i + pat.length))

/-- The request body of `POST /api/chat/sessions/:id/messages` as far as the
inline zod schema constrains it. -/
structure MessageBody where
  content : String
  role : String
  userLocation : Option Coordinates
  imageUrl : Option String
deriving Repr, DecidableEq

/-- The inline zod schema: `content: z.string().min(1)`,
`role: z.literal("user")`; parsing failure throws a `ZodError`. -/
def parseMessageBody (body : MessageBody) : Except Unit MessageBody :=
  if body.content.length ≥ 1 ∧ body.role = "user" then .ok body else .error ()

/-- What the route handler sends and leaves behind. -/
structure HandlerResult where
  status : Nat
  userMessage : Option ChatMessage
  aiMessage : Option ChatMessage
  errorText : Option String
  store : MemStorage
deriving Repr

/-- The canned assistant message the route's catch-all stores and returns
with HTTP 500. -/
def routeCatchContent : String :=
  "Oops! Even I can't fix that mess. My circuits are having a moment. Try again, genius. 🤖💥"

/-- The handler of `POST /api/chat/sessions/:id/messages`.  Any exception —
including the zod failure on malformed input — lands in the route's catch
block, which stores a sarcastic assistant message and answers **500**; the
embedded service calls are total, so in the embedding the only exception
source left is the parse. -/
def sendMessageHandler (env : Env) (chessSt : ChessGameState) (st : MemStorage)
    (sessionId : String) (body : MessageBody) (userIP : Option String) :
    HandlerResult :=
  match parseMessageBody body with
  | .error _ =>
    let (errorMessage, st') := createChatMessage st sessionId "assistant"
      routeCatchContent (some .errorFlag)
    { status := 500, userMessage := none, aiMessage := some errorMessage
      errorText := some "Failed to process message", store := st' }
  | .ok b =>
    if b.content.startsWith "[IMAGE_GENERATION]" then
      let prompt := (jsReplaceOnce b.content "[IMAGE_GENERATION]" "").trim
      let imageUrl := (Vision.generateImage env prompt).1
      let (userMessage, st1) := createChatMessage st sessionId "user"
        ("Generate an image: " ++ prompt) none
      let aiMessageContent :=
        if jsIncludes imageUrl "unsplash.com" then
          "Here's a stunning photo for \"" ++ prompt ++ "\"! 📸\n\n![Generated Image](" ++
            imageUrl ++ ")\n\nFound this gorgeous real photograph that captures your vision perfectly. Sometimes reality beats AI, right? 😏✨"
        else if jsIncludes imageUrl "svg" then
          "Here's your custom \"" ++ prompt ++ "\" masterpiece! 🎨\n\n![Generated Image](" ++
            imageUrl ++ ")\n\nCreated this special artwork just for you using advanced vector graphics. It's got that premium hand-crafted feel! 😏✨"
        else if jsIncludes imageUrl "pollinations" then
          "Here's your AI-generated \"" ++ prompt ++ "\"! 🎨\n\n![Generated Image](" ++
            imageUrl ++ ")\n\nGenerated using cutting-edge free AI technology. This is what happens when you have the right connections! 😏🔥"
        else
          "Here's your \"" ++ prompt ++ "\" image! 🎨\n\n![Generated Image](" ++
            imageUrl ++ ")\n\nGenerated using completely free AI services - no subscription needed! Quality art without breaking the bank! 💪✨"
      let (aiMessage, st2) := createChatMessage st1 sessionId "assistant"
        aiMessageContent none
      let messages := getSessionMessages st2 sessionId
      let st3 :=
        if messages.length ≤ 2 then
          (updateChatSession st2 sessionId (some (generateTitleFromMessage prompt))).2
        else st2
      { status := 200, userMessage := some userMessage, aiMessage := some aiMessage
        errorText := none, store := st3 }
    else
      let processedContent :=
        match truthyTag b.imageUrl with
        | some iu =>
          Vision.formatImageAnalysisForAI (Vision.analyzeImage env iu) b.content
        | none => b.content
      let filteredContent := filterPersonalInformation processedContent
      let (userMessage, st1) := createChatMessage st sessionId b.role filteredContent
        (some (.userMsg b.content.length b.imageUrl))
      let existingMessages := getSessionMessages st1 sessionId
      let st2 :=
        if existingMessages.length ≤ 1 then
          (updateChatSession st1 sessionId
            (some (generateTitleFromMessage filteredContent))).2
        else st1
      let messages := getSessionMessages st2 sessionId
      let conversationHistory := (jsSliceLast 10 messages).map
        (fun m => ({ role := m.role, content := m.content } : ChatMsg))
      let aiResponse0 := (generateSarcasticResponse env chessSt filteredContent
        conversationHistory userIP b.userLocation).1
      let aiResponse := enhanceResponseWithWebData env filteredContent aiResponse0
      let (aiMessage, st3) := createChatMessage st2 sessionId "assistant" aiResponse
        (some (.aiMsg userMessage.id (jsIncludes aiResponse "*Real-time info")))
      let st4 := (updateChatSession st3 sessionId none).2
      { status := 200, userMessage := some userMessage, aiMessage := some aiMessage
        errorText := none, store := st4 }

/-! ## Concrete sample data for the closed instances -/

/-- An environment in which every remote endpoint fails outright. -/
def envAllFail : Env :=
  { llm7 := .error "network down"
    hf := fun _ => .error "network down"
    locApi := .error ()
    weather := .error ()
    clockFmt := fun _ => .ok "Monday, January 1, 2024, 12:00 PM UTC"
    systemTimezone := "UTC"
    overpass := fun _ => .error ()
    geoDist := fun _ _ => 0
    ddg := .error ()
    visionHF := fun _ => .error ()
    visionOpenAI := fun _ => .error ()
    googleVision := .error ()
    googleVisionDemo := .error ()
    dalleSvc := fun _ => .error ()
    pollinations := fun _ => .error ()
    craiyon := .error ()
    chess := { stockfishReady := false, stockfishBest := none }
    randNat := 0
    randColors := []
    nowMs := 0 }

/-- `envAllFail` with a successful LLM7 completion. -/
def envLLM7Ok : Env :=
  { envAllFail with
      llm7 := .ok { ok := true, status := 200, statusText := "OK", errorText := ""
                    message? := some (some "Hello there!") } }

/-- `envAllFail` with the first Hugging Face model delivering text. -/
def envHFOk : Env :=
  { envAllFail with
      hf := fun m =>
        if m = "microsoft/phi-2" then
          .ok { ok := true, body := .jarr (some "backup brain speaking") }
        else .error "network down" }

/-- `envAllFail` with the first free-DALL-E service delivering a URL. -/
def envDalleOk : Env :=
  { envAllFail with
      dalleSvc := fun u =>
        if u = "https://api.openai-sb.com/v1/images/generations" then
          .ok { ok := true, images := [], dataUrl? := some "https://img.example/out.png" }
        else .error () }

/-- A small store: two sessions of two users, with one message each. -/
def sampleStore : MemStorage :=
  let st0 := emptyStorage
  let (s1, st1) := createChatSession st0 (some "alice") "New Chat"
  let (s2, st2) := createChatSession st1 (some "bob") "New Chat"
  let (_, st3) := createChatMessage st2 s1.id "user" "hello from alice"
  let (_, st4) := createChatMessage st3 s2.id "user" "hello from bob"
  st4

/-- A well-formed message body with harmless content. -/
def sampleBody : MessageBody :=
  { content := "hello", role := "user", userLocation := none, imageUrl := none }

/-- The malformed body of the C6 scenario: empty content. -/
def emptyBody : MessageBody :=
  { content := "", role := "user", userLocation := none, imageUrl := none }

/-- From the spec's words: the bare coordinate shape `[a-h][1-8][a-h][1-8]`,
matched anywhere in the string (its anchored form is `isCoordMoveStr`). -/
def specCoordShapeAnywhere (s : String) : Bool :=
  msearch (mseqs [mchar isFileChar, mchar isRankChar, mchar isFileChar, mchar isRankChar])
    s.data

/-! ## Helper lemmas shared by the claim theorems -/

theorem append_ne_empty_left {a b : String} (h : a ≠ "") : a ++ b ≠ "" := by
  intro hc
  apply h
  have hd := congrArg String.data hc
  rw [String.data_append] at hd
  have h2 := List.append_eq_nil.mp hd
  exact String.ext h2.1

/-- Filtering by `p` does not disturb a `find?` whose predicate entails `p`. -/
theorem find?_filter_of_imp {α : Type} (q p : α → Bool)
    (h : ∀ x, q x = true → p x = true) :
    ∀ l : List α, (l.filter p).find? q = l.find? q := by
  intro l
  induction l with
  | nil => rfl
  | cons x t IH =>
    by_cases hq : q x = true
    · rw [List.filter_cons, if_pos (h x hq)]
      rw [List.find?_cons_of_pos _ hq, List.find?_cons_of_pos _ hq]
    · rw [List.filter_cons]
      by_cases hp : p x = true
      · rw [if_pos hp, List.find?_cons_of_neg _ (by simpa using hq),
          List.find?_cons_of_neg _ (by simpa using hq)]
        exact IH
      · rw [if_neg hp, List.find?_cons_of_neg _ (by simpa using hq)]
        exact IH

/-! ## The claim theorems -/

/-- C3 (counterexample): the claim says every chat-provider invocation is
bounded by a timeout, but `callLLM7`'s fetch — one of the orchestrator's
provider calls — passes no `timeout` option and no abort signal, and in fact
none of the chat-provider fetches carries one. -/
theorem chatProviders_timeout_counterexample :
    llm7FetchOptions ∈ chatProviderFetchCalls ∧
    llm7FetchOptions.timeout? = none ∧
    chatProviderFetchCalls.all (fun o => o.timeout?.isSome) = false := by
  refine ⟨List.mem_cons_self _ _, rfl, by decide⟩

/-- C3 (amended): the chat-completion orchestrator's provider fetches —
the LLM7 call and the three Hugging Face model calls — all pass *no* timeout
option, so a hanging provider is never abandoned; the explicit `timeout`
options in the codebase belong to the image services' Pollinations HEAD
probes, not to the chat providers. -/
theorem chatProviders_no_timeout :
    chatProviderFetchCalls.length = 4 ∧
    chatProviderFetchCalls.all (fun o => o.timeout?.isNone) = true ∧
    pollinationsHeadTimeoutFreeVision = 10000 ∧
    pollinationsHeadTimeoutVision = 15000 := by
  refine ⟨by decide, by decide, rfl, rfl⟩

/-- C4 (counterexample): the validator is not an exact match of the spec
shape `[a-h][1-8][a-h][1-8]`: it also accepts the five-character promotion
form `"e2e4q"`, and it accepts `"E2E4"` (the regex is applied to the
lowercased move), neither of which matches the spec's shape as written. -/
theorem isValidMove_beyond_spec_shape :
    isValidMove "e2e4q" = true ∧ isCoordMoveStr "e2e4q" = false ∧
    isValidMove "E2E4" = true ∧ isCoordMoveStr "E2E4" = false := by
  refine ⟨by decide, by decide, by decide, by decide⟩

/-- C4 (amended): the chess move validator accepts `"e2e4"` and rejects
`"z9z9"` and `"e2-e4"`; it performs no chess-rule legality check — it accepts
exactly the regular-expression shape `[a-h][1-8][a-h][1-8][qrbn]?` anchored
on the lowercased move.  In particular every move whose lowercase form is the
spec's bare coordinate shape is accepted, and every accepted move contains
the spec's coordinate shape `[a-h][1-8][a-h][1-8]` (after lowercasing). -/
theorem isValidMove_coordinate_shape :
    isValidMove "e2e4" = true ∧ isValidMove "z9z9" = false ∧
    isValidMove "e2-e4" = false ∧
    (∀ m : String, isCoordMoveStr (jsToLower m) = true → isValidMove m = true) ∧
    (∀ m : String, isValidMove m = true → specCoordShapeAnywhere (jsToLower m) = true) := by
  refine ⟨by decide, by decide, by decide, ?_, ?_⟩
  · intro m h
    simp only [isCoordMoveStr] at h
    simp only [isValidMove]
    rcases hl : (jsToLower m).data with _ | ⟨a, _ | ⟨b, _ | ⟨c, _ | ⟨d, _ | ⟨e, t⟩⟩⟩⟩⟩ <;>
      simp_all
  · intro m h
    simp only [isValidMove] at h
    rw [specCoordShapeAnywhere, msearch]
    rcases hl : (jsToLower m).data with
      _ | ⟨a, _ | ⟨b, _ | ⟨c, _ | ⟨d, _ | ⟨e, _ | ⟨f, t⟩⟩⟩⟩⟩⟩ <;> rw [hl] at h
    · simp at h
    · simp at h
    · simp at h
    · simp at h
    · simp only [Bool.and_eq_true] at h
      obtain ⟨⟨⟨ha, hb⟩, hc⟩, hd⟩ := h
      refine List.any_eq_true.mpr ⟨0, by simp, ?_⟩
      simp [mseqs, mseq, mchar, ha, hb, hc, hd]
    · simp only [Bool.and_eq_true] at h
      obtain ⟨⟨⟨⟨ha, hb⟩, hc⟩, hd⟩, hp⟩ := h
      refine List.any_eq_true.mpr ⟨0, by simp, ?_⟩
      simp [mseqs, mseq, mchar, ha, hb, hc, hd]
    · simp at h

/-- C5: both local fallback generators are total and never return the
empty string: the keyword-matched chat fallback and the keyword-dispatched
SVG image fallback are pure functions (no network field of the environment is
consulted) that always yield non-empty text. -/
theorem localFallbackGenerators_total :
    (∀ (userMessage : String) (realTimeInfo : Option String),
       generateIntelligentFallback userMessage realTimeInfo ≠ "") ∧
    (∀ (env : Env) (prompt : String), FreeVision.generateCustomSVG env prompt ≠ "") := by
  constructor
  · intro userMessage realTimeInfo
    simp only [generateIntelligentFallback]
    split_ifs <;>
      first
        | exact append_ne_empty_left (by decide)
        | exact append_ne_empty_left (append_ne_empty_left (append_ne_empty_left (by decide)))
  · intro env prompt
    simp only [FreeVision.generateCustomSVG]
    split_ifs <;>
      simp only [FreeVision.createTomatoSVG, FreeVision.createAbstractArt,
        FreeVision.createLandscapeSVG, FreeVision.createGenericArt,
        FreeVision.svgDataUrl] <;>
      exact append_ne_empty_left (by decide)

/-- C6 (counterexample): the concrete empty-content request is answered with
HTTP 500 — the route's catch-all — not with a 4xx client error as the spec
promises. -/
theorem emptyMessage_500_counterexample :
    (sendMessageHandler envAllFail chessInitialState sampleStore "id-0" emptyBody
      none).status = 500 ∧
    ¬ (sendMessageHandler envAllFail chessInitialState sampleStore "id-0" emptyBody
      none).status < 500 := by
  have h : (sendMessageHandler envAllFail chessInitialState sampleStore "id-0" emptyBody
      none).status = 500 := rfl
  refine ⟨h, ?_⟩
  rw [h]
  omega

/-- C6 (amended): an empty message content fails the body schema, and the
route's catch-all then stores a canned sarcastic assistant message flagged as
an error and answers HTTP **500** — a server error carrying a best-effort
body, not the 4xx client error the spec describes. -/
theorem emptyMessage_returns_500 (env : Env) (chessSt : ChessGameState)
    (st : MemStorage) (sessionId : String) (body : MessageBody)
    (ip : Option String) (h : body.content = "") :
    (sendMessageHandler env chessSt st sessionId body ip).status = 500 ∧
    ∃ m, (sendMessageHandler env chessSt st sessionId body ip).aiMessage = some m ∧
      m.content = routeCatchContent ∧ m.metadata = some MsgMetadata.errorFlag := by
  have hp : parseMessageBody body = .error () := by
    rw [parseMessageBody, if_neg]
    intro hc
    rw [h] at hc
    exact absurd hc.1 (by decide)
  simp only [sendMessageHandler, hp, createChatMessage]
  exact ⟨trivial, _, rfl, rfl, rfl⟩

/-- C6 witness: the amended theorem at the concrete empty-content body. -/
theorem emptyMessage_returns_500_witness :
    (sendMessageHandler envAllFail chessInitialState sampleStore "id-0" emptyBody
      none).status = 500 ∧
    ∃ m, (sendMessageHandler envAllFail chessInitialState sampleStore "id-0" emptyBody
      none).aiMessage = some m ∧
      m.content = routeCatchContent ∧ m.metadata = some MsgMetadata.errorFlag :=
  emptyMessage_returns_500 envAllFail chessInitialState sampleStore "id-0" emptyBody
    none rfl

/-- Whenever the clock formatter never throws, `getCurrentTime` succeeds. -/
theorem getCurrentTime_ok (env : Env) (fmt : String → String)
    (hck : ∀ tz, env.clockFmt tz = .ok (fmt tz)) (tz? : Option String) :
    ∃ p, getCurrentTime env tz? = .ok p := by
  simp only [getCurrentTime, hck]
  exact ⟨_, rfl⟩

/-- Whenever the clock formatter never throws, `getRealTimeData` succeeds —
whatever the location and weather endpoints did. -/
theorem getRealTimeData_ok (env : Env) (fmt : String → String)
    (hck : ∀ tz, env.clockFmt tz = .ok (fmt tz)) (uip : Option String)
    (lat? lon? : Option ℚ) :
    ∃ r, getRealTimeData env uip lat? lon? = .ok r := by
  simp only [getRealTimeData, getCurrentTime, hck]
  exact ⟨_, rfl⟩

/-- Whenever the clock formatter never throws, the whole context-building
phase succeeds: no enrichment failure aborts it. -/
theorem buildContext_ok (env : Env) (fmt : String → String)
    (hck : ∀ tz, env.clockFmt tz = .ok (fmt tz)) (chessSt : ChessGameState)
    (msg : String) (uip : Option String) (loc : Option Coordinates) :
    ∃ p, buildContext env chessSt msg uip loc = .ok p := by
  obtain ⟨r, hr⟩ := getRealTimeData_ok env fmt hck uip (loc.map (·.lat)) (loc.map (·.lon))
  simp only [buildContext, hr]
  cases hq : extractChessQuery msg with
  | none => exact ⟨_, rfl⟩
  | some q =>
    rcases hh : handleChessInteraction env.chess chessSt q with ⟨ci, st2⟩
    exact ⟨_, rfl⟩

/-- C7: each auxiliary enrichment lookup degrades gracefully: a failed
location fetch yields `none`, a failed weather fetch yields `none`, a failed
Overpass fetch yields the empty places list, the formatter omits the
location and weather sections when the lookups delivered nothing, and the
context-building phase — hence response generation — still succeeds whenever
the clock formatter (its only throw source) does not throw. -/
theorem enrichment_graceful_degradation :
    (∀ (env : Env) (ip : Option String), env.locApi = .error () →
       getLocationInfo env ip = none) ∧
    (∀ (env : Env) (lat lon : ℚ), env.weather = .error () →
       getWeatherInfo env lat lon = none) ∧
    (∀ (env : Env) (lat lon : ℚ) (ptype : String) (radius : ℚ),
       (∀ q, env.overpass q = .error ()) →
       findNearbyPlaces env lat lon ptype radius = []) ∧
    (∀ d : RealTimeData, d.location = none → d.weather = none →
       formatRealTimeDataForAI d =
         "*Real-time info:*\n" ++ "🕐 Current time: " ++ d.currentTime ++ "\n") ∧
    (∀ (env : Env) (fmt : String → String),
       (∀ tz, env.clockFmt tz = .ok (fmt tz)) →
       ∀ (chessSt : ChessGameState) (msg : String) (uip : Option String)
         (loc : Option Coordinates),
       ∃ p, buildContext env chessSt msg uip loc = .ok p) := by
  refine ⟨?_, ?_, ?_, ?_, ?_⟩
  · intro env ip h
    simp [getLocationInfo, h]
  · intro env lat lon h
    simp [getWeatherInfo, h]
  · intro env lat lon ptype radius h
    simp [findNearbyPlaces, h]
  · intro d h1 h2
    simp only [formatRealTimeDataForAI, h1, h2]
    rw [String.append_empty, String.append_empty]
  · intro env fmt hck chessSt msg uip loc
    exact buildContext_ok env fmt hck chessSt msg uip loc

/-- C8: listing a user's chat sessions returns exactly that user's sessions
(a permutation of the store's sessions whose `userId` matches), every
returned session belongs to the user, and they come ordered by last-update
time, most recently updated first. -/
theorem getUserChatSessions_spec (st : MemStorage) (userId : String) :
    (getUserChatSessions st userId).Perm
      (st.chatSessions.filter (fun s => s.userId == some userId)) ∧
    (∀ s ∈ getUserChatSessions st userId, s.userId = some userId) ∧
    (getUserChatSessions st userId).Pairwise
      (fun a b => b.updatedAt.getD 0 ≤ a.updatedAt.getD 0) := by
  refine ⟨List.mergeSort_perm _ _, ?_, ?_⟩
  · intro s hs
    have hmem := (List.mergeSort_perm
      (st.chatSessions.filter (fun s => s.userId == some userId))
      (fun a b => decide (b.updatedAt.getD 0 ≤ a.updatedAt.getD 0))).mem_iff.mp hs
    exact eq_of_beq (List.mem_filter.mp hmem).2
  · have hp := @List.sorted_mergeSort ChatSession
      (fun a b => decide (b.updatedAt.getD 0 ≤ a.updatedAt.getD 0))
      (fun a b c hab hbc => by
        simp only [decide_eq_true_eq] at *
        omega)
      (fun a b => by
        simp only [Bool.or_eq_true, decide_eq_true_eq]
        omega)
      (st.chatSessions.filter (fun s => s.userId == some userId))
    exact List.Pairwise.imp (fun h => of_decide_eq_true h) hp

/-- C10: deleting a chat session reports whether it existed; on success the
session is no longer retrievable and its message list is empty, while every
other session's record and messages are untouched; on a missing session the
store is returned unchanged. -/
theorem deleteChatSession_spec (st : MemStorage) (id : String) :
    ((deleteChatSession st id).1 = (getChatSession st id).isSome) ∧
    ((deleteChatSession st id).1 = true →
       getChatSession (deleteChatSession st id).2 id = none ∧
       getSessionMessages (deleteChatSession st id).2 id = []) ∧
    (∀ other : String, other ≠ id →
       getChatSession (deleteChatSession st id).2 other = getChatSession st other ∧
       getSessionMessages (deleteChatSession st id).2 other =
         getSessionMessages st other) ∧
    ((deleteChatSession st id).1 = false → (deleteChatSession st id).2 = st) := by
  by_cases hd : (st.chatSessions.find? (fun s => s.id == id)).isSome = true
  · have h1 : deleteChatSession st id =
        (true,
         { st with
             chatSessions := st.chatSessions.filter (fun s => s.id != id)
             chatMessages := st.chatMessages.filter (fun m => m.sessionId != id) }) := by
      simp [deleteChatSession, deleteSessionMessages, hd]
    rw [h1]
    refine ⟨?_, ?_, ?_, ?_⟩
    · simp only [getChatSession]
      exact hd.symm
    · intro _
      constructor
      · simp only [getChatSession]
        refine List.find?_eq_none.mpr ?_
        intro x hx
        simpa using (List.mem_filter.mp hx).2
      · simp only [getSessionMessages]
        have hnil : (st.chatMessages.filter (fun m => m.sessionId != id)).filter
            (fun m => m.sessionId == id) = [] := by
          refine List.filter_eq_nil_iff.mpr ?_
          intro m hm
          simpa using (List.mem_filter.mp hm).2
        rw [hnil, List.mergeSort_nil]
    · intro other hother
      constructor
      · simp only [getChatSession]
        refine find?_filter_of_imp _ _ ?_ st.chatSessions
        intro x hx
        have hx2 : x.id = other := eq_of_beq hx
        rw [hx2]
        simpa using hother
      · simp only [getSessionMessages]
        congr 1
        rw [List.filter_filter]
        refine List.filter_congr ?_
        intro x _
        cases hb : x.sessionId == other with
        | false => simp [hb]
        | true =>
          have hx2 : x.sessionId = other := eq_of_beq hb
          have hbne : (x.sessionId != id) = true := by
            rw [hx2]
            simpa using hother
          simp [hb, hbne]
    · intro hfalse
      exact absurd hfalse (by simp)
  · rw [Bool.not_eq_true] at hd
    have h1 : deleteChatSession st id = (false, st) := by
      simp [deleteChatSession, hd]
    rw [h1]
    refine ⟨?_, ?_, fun other _ => ⟨rfl, rfl⟩, fun _ => rfl⟩
    · simp only [getChatSession]
      exact hd.symm
    · intro htrue
      exact absurd htrue (by simp)

/-- C1: when every remote chat provider fails (LLM7 errors on any message
list, every Hugging Face model errors), the chat orchestrator returns the
local fallback generator's output and never propagates an error; likewise
the image-analysis orchestrator falls back to the local byte-inspection
generator when every remote vision rung fails.  The closed conjunct records
one concrete all-fail run: every provider was contacted, in order, and a
response was still produced. -/
theorem allProvidersFail_fallback :
    (∀ (env : Env) (chessSt : ChessGameState) (msg : String) (hist : List ChatMsg)
       (ip : Option String) (loc : Option Coordinates),
       (∀ msgs, ∃ e, callLLM7 env msgs = .error e) →
       (∀ prompt, ∃ e, (callHuggingFace env prompt).1 = .error e) →
       ∃ rt, (generateSarcasticResponse env chessSt msg hist ip loc).1 =
         generateIntelligentFallback msg rt) ∧
    (∀ (env : Env) (img : String),
       (∀ u, env.visionHF u = .error ()) →
       (∀ u, env.visionOpenAI u = .error ()) →
       env.googleVision = .error () →
       Vision.analyzeImage env img =
         FreeVision.analyzeImageAdvanced (base64Payload img)) ∧
    (generateSarcasticResponse envAllFail chessInitialState "ping" [] none none).2 =
      ["llm7", "microsoft/phi-2", "microsoft/DialoGPT-medium",
       "facebook/blenderbot-400M-distill"] := by
  refine ⟨?_, ?_, rfl⟩
  · intro env chessSt msg hist ip loc hL hH
    cases hbc : buildContext env chessSt msg ip loc with
    | error e =>
      refine ⟨none, ?_⟩
      simp [generateSarcasticResponse, hbc]
    | ok p =>
      obtain ⟨ctx, st2⟩ := p
      obtain ⟨e1, he1⟩ := hL (buildMessages (enhancedPromptOf ctx) hist msg)
      obtain ⟨e2, he2⟩ := hH (enhancedPromptOf ctx ++ "\n\nUser: " ++ msg ++ "\nSai Kaki:")
      refine ⟨some ctx, ?_⟩
      simp [generateSarcasticResponse, hbc, he1, he2]
  · intro env img h1 h2 h3
    simp [Vision.analyzeImage, FreeVision.analyzeImageReliably,
      FreeVision.analyzeWithHuggingFace, FreeVision.analyzeWithFreeOpenAI,
      FreeVision.analyzeWithGoogleFree, FreeVision.hfEndpoints,
      FreeVision.openAIServices, List.findSome?, h1, h2, h3]

/-- C2: the first successful provider's value is returned and no later
provider of the chain is invoked — witnessed by the recorded traces: a
successful LLM7 call yields the trace `["llm7"]` (no Hugging Face model is
contacted), a successful first DALL-E service yields a one-entry trace (the
second service never runs), and a successful first Hugging Face model stops
the model loop at `["microsoft/phi-2"]`. -/
theorem firstSuccess_shortCircuits :
    (∀ (env : Env) (chessSt : ChessGameState) (msg : String) (hist : List ChatMsg)
       (ip : Option String) (loc : Option Coordinates) (ctx : String)
       (st2 : ChessGameState) (v : String),
       buildContext env chessSt msg ip loc = .ok (ctx, st2) →
       callLLM7 env (buildMessages (enhancedPromptOf ctx) hist msg) = .ok v →
       generateSarcasticResponse env chessSt msg hist ip loc = (v, ["llm7"])) ∧
    (∀ (env : Env) (prompt : String) (r : DalleReply) (u : String),
       env.dalleSvc "https://api.openai-sb.com/v1/images/generations" = .ok r →
       r.ok = true → truthyTag r.dataUrl? = some u →
       Vision.generateImage env prompt =
         (u, ["https://api.openai-sb.com/v1/images/generations"])) ∧
    (∀ (env : Env) (prompt : String) (g : String),
       env.hf "microsoft/phi-2" = .ok { ok := true, body := .jarr (some g) } →
       g ≠ "" →
       callHuggingFace env prompt = (.ok g.trim, ["microsoft/phi-2"])) := by
  refine ⟨?_, ?_, ?_⟩
  · intro env chessSt msg hist ip loc ctx st2 v hbc hok
    simp [generateSarcasticResponse, hbc, hok]
  · intro env prompt r u h1 h2 h3
    simp [Vision.generateImage, FreeVision.generateImageDALLE,
      FreeVision.generateWithFreeDALLE, FreeVision.dalleServiceUrls,
      FreeVision.findSomeTr, h1, h2, h3]
  · intro env prompt g h1 h2
    simp [callHuggingFace, callHuggingFaceLoop, hfModels, truthyTag, h1, h2]

/-- C9 (counterexample): the four passes run in source order, so the phone
pass consumes the first ten digits of an unseparated sixteen-digit card
number before the credit-card pass ever sees it: the output is
`"[PHONE]23456"`, not `"[CREDIT_CARD]"`, even though the card pattern (with
its word boundaries) does match the full input at position 0. -/
theorem filterPersonalInformation_counterexample :
    filterPersonalInformation "1234567890123456" = "[PHONE]23456" ∧
    cardMatchAt none "1234567890123456".data = some 16 ∧
    jsIncludes (filterPersonalInformation "1234567890123456") "[CREDIT_CARD]" = false := by
  have h : filterPersonalInformation "1234567890123456" = "[PHONE]23456" := by
    simp only [filterPersonalInformation, scanRep_eq_F]
    decide
  refine ⟨h, by decide, ?_⟩
  rw [h]
  decide

/-- C9 (amended): every substring matching the email pattern is replaced —
the output contains no email-pattern match at all — and the message stored
for the user is the filtered text, not the raw input; the placeholder
substitution works as claimed on separated inputs (the closed conjunct),
but the four patterns are applied in source order to the previous pass's
output, so a match of a later pattern can be destroyed by an earlier pass
(see the counterexample: the phone pass eats an unseparated card number). -/
theorem filterPersonalInformation_spec :
    (∀ text : String, EmailSafe (filterPersonalInformation text).data) ∧
    (∀ (env : Env) (chessSt : ChessGameState) (st : MemStorage) (sid : String)
       (body : MessageBody) (ip : Option String) (m : ChatMessage),
       parseMessageBody body = .ok body →
       body.content.startsWith "[IMAGE_GENERATION]" = false →
       body.imageUrl = none →
       (sendMessageHandler env chessSt st sid body ip).userMessage = some m →
       m.content = filterPersonalInformation body.content) ∧
    filterPersonalInformation
        "Contact john.doe@example.com or 555-123-4567, card 4111 1111 1111 1111, SSN 123-45-6789" =
      "Contact [EMAIL] or [PHONE], card [CREDIT_CARD], SSN [SSN]" := by
  refine ⟨filterPersonalInformation_emailSafe, ?_, ?_⟩
  · intro env chessSt st sid body ip m hok hsw himg hm
    simp only [sendMessageHandler, hok, hsw, himg, truthyTag, createChatMessage,
      Bool.false_eq_true, if_false, Option.some.injEq] at hm
    subst hm
    rfl
  · simp only [filterPersonalInformation, scanRep_eq_F]
    decide

end SaiKaki
